import Mathlib

/-!
# Verification development for `detect_issues.py`

Shallow embedding of the data-quality detection engine
(`data-quality-platform/backend/detect_issues.py`): the twelve rule
detectors of class `DataQualityDetector`, the quality-score aggregator
`calculate_quality_scores`, and the surrounding control flow of
`detect_all_issues`.

Modelling conventions:

* A loaded table (`pd.DataFrame(data)` built from a JSON list of records)
  is a rectangular grid: a list of column names and a list of rows, each a
  list of cells; a missing cell reads as null (pandas fills absent record
  keys with `NaN`).
* Machine floats are modelled as exact rationals (`Rat`).  `round(x, 1)`
  is modelled as exact round-half-even at one decimal, which is Python's
  rounding mode; binary-float representation error is outside the model.
* `datetime.now()` is passed in explicitly as an integer epoch-day `now`
  (the clock is an input of the embedding).  Date values are modelled at
  day granularity; `now` is understood to fall strictly inside its day,
  so a parsed date (midnight of its day) is after `now` exactly when its
  epoch day exceeds `now`.
* Python exceptions are modelled with `Except Unit`.  Over JSON-scalar
  cells the detector bodies are total; the one genuinely fallible
  operation is row hashing in `df.duplicated()` (line 152), which raises
  `TypeError` whenever the frame holds an unhashable nested cell
  (`Cell.comp` below).  Those detectors that wrap their body or the
  per-value work in `try/except` (negative values, referential integrity,
  date parsing, `float(value)` coercion) are total here because the
  caught failure is part of their ordinary control flow.
* Presentational `title`/`description` strings of an issue are elided
  from the `Issue` record; every structured field is kept.  The `str()`
  rendering of a float is approximated by `qRender`.
-/

/-- A cell of the loaded table: a JSON scalar (null, string, integer,
float, boolean) or `comp`, a nested JSON object (a Python `dict`), which
pandas stores as an opaque, unhashable object; its payload is its `str`
rendering. -/
inductive Cell where
  | null
  | str (s : String)
  | int (n : Int)
  | num (q : Rat)
  | bool (b : Bool)
  | comp (s : String)
  deriving DecidableEq, Repr

/-- The loaded table: column names in first-seen order and the row grid.
`len(self.df)` is `rows.length`; ragged rows read as null past their end. -/
structure Table where
  cols : List String
  rows : List (List Cell)
  deriving DecidableEq, Repr

/-- `self.total_rows = len(self.df)` (line 20). -/
def Table.nRows (t : Table) : Nat := t.rows.length

/-- `self.df.loc[i, cols[j]]`: the cell of row `i` at column position `j`
(null when absent, matching the `NaN` fill of `pd.DataFrame`). -/
def Table.cellAt (t : Table) (i j : Nat) : Cell := (t.rows.getD i []).getD j Cell.null

/-- The column at position `j`, as the list of its cells in row order. -/
def Table.colCells (t : Table) (j : Nat) : List Cell :=
  t.rows.map (fun r => r.getD j Cell.null)

/-- The name of column `j`. -/
def Table.colName (t : Table) (j : Nat) : String := t.cols.getD j ""

/-- `adjust_row_number` (lines 49-56): pandas 0-based index to 1-based
display row number. -/
def adjust_row_number (i : Nat) : Nat := i + 1

/-- Decimal digits to a natural number. -/
def digitsToNat (l : List Char) : Nat :=
  l.foldl (fun a c => a * 10 + (c.toNat - 48)) 0

/-! Kernel-evaluable rational arithmetic.  The built-in `Rat.add`,
`Rat.sub`, `Rat.mul` and `Rat.div` do not reduce inside the Lean kernel,
so the embedding computes through `Rat.divInt` (which does); each
operation is proved equal to the corresponding field operation below, so
every theorem can be read and proved over ordinary `ℚ` arithmetic. -/

def qAdd (a b : Rat) : Rat :=
  Rat.divInt (a.num * (b.den : Int) + b.num * (a.den : Int)) ((a.den : Int) * (b.den : Int))

def qSub (a b : Rat) : Rat :=
  Rat.divInt (a.num * (b.den : Int) - b.num * (a.den : Int)) ((a.den : Int) * (b.den : Int))

def qMul (a b : Rat) : Rat :=
  Rat.divInt (a.num * b.num) ((a.den : Int) * (b.den : Int))

def qDiv (a b : Rat) : Rat :=
  Rat.divInt (a.num * (b.den : Int)) ((a.den : Int) * b.num)

def qNeg (a : Rat) : Rat := Rat.divInt (-a.num) (a.den : Int)

theorem qAdd_eq (a b : Rat) : qAdd a b = a + b := by
  have ha : ((a.den : Rat)) ≠ 0 := Nat.cast_ne_zero.mpr a.den_nz
  have hb : ((b.den : Rat)) ≠ 0 := Nat.cast_ne_zero.mpr b.den_nz
  rw [qAdd, Rat.divInt_eq_div]
  conv_rhs => rw [← Rat.num_div_den a, ← Rat.num_div_den b]
  push_cast
  field_simp

theorem qSub_eq (a b : Rat) : qSub a b = a - b := by
  have ha : ((a.den : Rat)) ≠ 0 := Nat.cast_ne_zero.mpr a.den_nz
  have hb : ((b.den : Rat)) ≠ 0 := Nat.cast_ne_zero.mpr b.den_nz
  rw [qSub, Rat.divInt_eq_div]
  conv_rhs => rw [← Rat.num_div_den a, ← Rat.num_div_den b]
  push_cast
  field_simp
  ring

theorem qMul_eq (a b : Rat) : qMul a b = a * b := by
  have ha : ((a.den : Rat)) ≠ 0 := Nat.cast_ne_zero.mpr a.den_nz
  have hb : ((b.den : Rat)) ≠ 0 := Nat.cast_ne_zero.mpr b.den_nz
  rw [qMul, Rat.divInt_eq_div]
  conv_rhs => rw [← Rat.num_div_den a, ← Rat.num_div_den b]
  push_cast
  field_simp

theorem qNeg_eq (a : Rat) : qNeg a = -a := by
  have ha : ((a.den : Rat)) ≠ 0 := Nat.cast_ne_zero.mpr a.den_nz
  rw [qNeg, Rat.divInt_eq_div]
  conv_rhs => rw [← Rat.num_div_den a]
  push_cast
  field_simp

theorem qDiv_eq (a b : Rat) : qDiv a b = a / b := by
  by_cases hb : b = 0
  · subst hb
    simp [qDiv]
  · have ha : ((a.den : Rat)) ≠ 0 := Nat.cast_ne_zero.mpr a.den_nz
    have hbn : (b.num : Rat) ≠ 0 := by exact_mod_cast Rat.num_ne_zero.mpr hb
    have hbd : ((b.den : Rat)) ≠ 0 := Nat.cast_ne_zero.mpr b.den_nz
    rw [qDiv, Rat.divInt_eq_div]
    conv_rhs => rw [← Rat.num_div_den a, ← Rat.num_div_den b]
    push_cast
    field_simp

/-- Best-effort model of Python `str()` on a float value: integral floats
render with a trailing `.0`; other rationals fall back to a fraction
display (cosmetic only, never branched on by a detector). -/
def qRender (q : Rat) : String :=
  if q.den = 1 then toString q.num ++ ".0"
  else toString q.num ++ "/" ++ toString q.den

/-- Python `str(value)` of a cell as pandas `astype(str)` / f-strings see
it: `None` for null, `True`/`False` for booleans, the digits for an int. -/
def cellStr : Cell → String
  | .null => "None"
  | .str s => s
  | .int n => toString n
  | .num q => qRender q
  | .bool b => if b then "True" else "False"
  | .comp s => s

/-- Python `str.strip()` (and pandas `str.strip()`): drop leading and
trailing whitespace.  (The core `String.trim` does not reduce in the
kernel, so the embedding works on the character list.) -/
def pyStrip (s : String) : String :=
  ⟨((s.toList.dropWhile Char.isWhitespace).reverse.dropWhile Char.isWhitespace).reverse⟩

/-- `str.lower()`, character by character. -/
def lowerStr (s : String) : String := ⟨s.toList.map Char.toLower⟩

/-- Core of the decimal parser: `digits`, `digits.digits`, `.digits` or
`digits.` (what `float(...)`/`pd.to_numeric` accept, minus exponents and
`inf`/`nan` spellings, which the model leaves out). -/
def parseDecimalCore (l : List Char) : Option Rat :=
  let ip := l.takeWhile (fun c => c.isDigit)
  let rest := l.dropWhile (fun c => c.isDigit)
  match rest with
  | [] => if ip.isEmpty then none else some ((digitsToNat ip : Int) : Rat)
  | '.' :: fp =>
      if fp.all (fun c => c.isDigit) && (!ip.isEmpty || !fp.isEmpty) then
        some (Rat.divInt
          ((digitsToNat ip : Int) * ((10 ^ fp.length : Nat) : Int) + (digitsToNat fp : Int))
          ((10 ^ fp.length : Nat) : Int))
      else none
  | _ => none

/-- Python numeric-string parsing (used by `float(value)` and
`pd.to_numeric`): optional sign after stripping surrounding whitespace. -/
def parseDecimal (s : String) : Option Rat :=
  match (pyStrip s).toList with
  | '+' :: l => parseDecimalCore l
  | '-' :: l => (parseDecimalCore l).map qNeg
  | l => parseDecimalCore l

/-- `pd.to_numeric(column, errors='coerce')` on one cell: numbers and
booleans convert, numeric strings parse, everything else coerces to NaN
(`none`). -/
def toNumericCoerce : Cell → Option Rat
  | .null => none
  | .int n => some (n : Rat)
  | .num q => some q
  | .bool b => some (if b then 1 else 0)
  | .str s => parseDecimal s
  | .comp _ => none

/-- Python `float(value)` succeeds (the `try` of lines 581-584); null is
pre-filtered by `pd.notna`. -/
def floatParses : Cell → Bool
  | .null => false
  | .int _ => true
  | .num _ => true
  | .bool _ => true
  | .str s => (parseDecimal s).isSome
  | .comp _ => false

def isNullCell : Cell → Bool
  | .null => true
  | _ => false

def isBoolCell : Cell → Bool
  | .bool _ => true
  | _ => false

def isStrOrComp : Cell → Bool
  | .str _ => true
  | .comp _ => true
  | _ => false

def isCompCell : Cell → Bool
  | .comp _ => true
  | _ => false

/-- pandas dtype inference for a column built from JSON records:
`object` dtype exactly when some cell is a string or nested object, or
the column is empty / all null, or a boolean is mixed with a non-boolean
(otherwise ints/floats/nulls coerce to a numeric dtype and all-bool
columns to `bool`). -/
def isObjectDtype (cells : List Cell) : Bool :=
  cells.any isStrOrComp || cells.all isNullCell ||
    (cells.any isBoolCell && cells.any (fun c => !isBoolCell c))

/-- The column is selected by `select_dtypes(include=[np.number])`:
`int64`/`float64`, i.e. not object and not the all-bool `bool` dtype. -/
def isNumericDtype (cells : List Cell) : Bool :=
  !isObjectDtype cells && cells.any (fun c => !isBoolCell c)

/-- The numeric value of a cell of a numeric-dtype column (`int`/`num`;
null is `NaN`). -/
def cellNumOpt : Cell → Option Rat
  | .int n => some (n : Rat)
  | .num q => some q
  | _ => none

/-- Python's numeric view of a scalar for `==`/hashing: ints, floats and
booleans compare by value (`True == 1 == 1.0`). -/
def cellPyVal : Cell → Option Rat
  | .int n => some (n : Rat)
  | .num q => some q
  | .bool b => some (if b then 1 else 0)
  | _ => none

/-- Python value equality between two non-null scalars (the semantics of
both hashing and `==`): cross-type numeric equality, string equality;
distinct categories never compare equal. -/
def valEqNonNull (a b : Cell) : Bool :=
  match cellPyVal a, cellPyVal b with
  | some x, some y => x == y
  | _, _ =>
      match a, b with
      | .str s, .str u => s == u
      | .comp s, .comp u => s == u
      | _, _ => false

/-- Cell equality as `duplicated()` sees it: missing values (`None`/`NaN`)
hash equal to each other, otherwise Python value equality. -/
def dupEqCell (a b : Cell) : Bool :=
  (isNullCell a && isNullCell b) || valEqNonNull a b

/-- Cell equality as the elementwise `==` comparison of line 164 sees it:
a missing value compares unequal to everything, itself included. -/
def cmpEqCell (a b : Cell) : Bool := valEqNonNull a b

/-- Whole-row equality under `duplicated()` hashing. -/
def rowDupEq (t : Table) (i j : Nat) : Bool :=
  (List.range t.cols.length).all (fun k => dupEqCell (t.cellAt i k) (t.cellAt j k))

/-- Whole-row equality under `(self.df == row_data).all(axis=1)`
(line 163-165). -/
def rowCmpEq (t : Table) (i j : Nat) : Bool :=
  (List.range t.cols.length).all (fun k => cmpEqCell (t.cellAt i k) (t.cellAt j k))

/-- `pat` occurs as a leading run of `s`. -/
def startsWithChars : List Char → List Char → Bool
  | [], _ => true
  | _ :: _, [] => false
  | p :: ps, c :: cs => p == c && startsWithChars ps cs

/-- `pat` occurs as a contiguous run anywhere in `s` (substring search,
the semantics of `in` / an unanchored regex literal). -/
def containsChars (pat : List Char) : List Char → Bool
  | [] => pat.isEmpty
  | c :: cs => startsWithChars pat (c :: cs) || containsChars pat cs

/-- `any(keyword in col.lower() for keyword in keys)`. -/
def nameHasAny (col : String) (keys : List String) : Bool :=
  keys.any (fun k => containsChars k.toList (lowerStr col).toList)

/-- One `{row, column, value}` triple of an issue's `exactLocations`. -/
structure ExactLoc where
  row : Nat
  column : String
  value : String
  deriving DecidableEq, Repr

/-- An issue record as `add_issue` receives it.  The presentational
`title` and `description` strings are elided; all structured fields are
kept with their source names (`type` is `issueType` here). -/
structure Issue where
  issueType : String
  severity : String
  column : String
  recordCount : Nat
  impactScore : Rat
  affectedRows : List Nat
  totalAffectedRows : Nat
  exampleBadValues : List String
  expectedFormat : String
  exactLocations : List ExactLoc
  duplicateGroups : Option (List (List Nat)) := none
  deriving DecidableEq, Repr

/-- Floor of a rational as an integer (exact). -/
def ratFloor (q : Rat) : Int := q.num.fdiv q.den

/-- Python `round` to an integer: round-half-to-even (banker's
rounding), exact over rationals. -/
def roundHalfEven (q : Rat) : Int :=
  let f := ratFloor q
  let r := qSub q (f : Rat)
  if r < Rat.divInt 1 2 then f
  else if Rat.divInt 1 2 < r then f + 1
  else if f % 2 = 0 then f else f + 1

/-- Python `round(x, 1)`: one decimal place, half to even. -/
def roundTo1 (q : Rat) : Rat := Rat.divInt (roundHalfEven (qMul 10 q)) 10

/-- The `round(len(indices) / self.total_rows * 100, 1)` expression each
detector stores as `impactScore`. -/
def impactOf (t : Table) (k : Nat) : Rat :=
  roundTo1 (qMul (qDiv (k : Rat) (t.nRows : Rat)) 100)

/-- `[self.adjust_row_number(idx) for idx in indices]`. -/
def mkAffected (idxs : List Nat) : List Nat := idxs.map adjust_row_number

/-- The `[{'row': adjust(idx), 'column': col, 'value': vf(idx)} for idx in
indices[:20]]` comprehension shared by the detectors. -/
def locsOf (col : String) (vf : Nat → String) (idxs : List Nat) : List ExactLoc :=
  (idxs.take 20).map (fun i => { row := adjust_row_number i, column := col, value := vf i })

/-- `exactLocations` with the real rendered cell value
(`str(self.df.loc[idx, col])`). -/
def mkLocs (t : Table) (j : Nat) (idxs : List Nat) : List ExactLoc :=
  locsOf (t.colName j) (fun i => cellStr (t.cellAt i j)) idxs

/-- `'BAD_' followed by a word character occurs in the (uppercased)
text`: the `BAD_\w+` alternative of the placeholder regex. -/
def containsBADunderscore : List Char → Bool
  | [] => false
  | c :: cs =>
      (startsWithChars ['B', 'A', 'D', '_'] (c :: cs) &&
        (match cs with
         | _ :: _ :: _ :: w :: _ => w.isAlphanum || w == '_'
         | _ => false)) ||
      containsBADunderscore cs

def upperChars (s : String) : List Char := s.toList.map Char.toUpper

/-- Case-insensitive containment of any of the plain literals. -/
def anyContains (pats : List String) (u : List Char) : Bool :=
  pats.any (fun p => containsChars p.toList u)

/-- `detect_null_placeholders`' vocabulary (lines 102-121): the joined
regex `BAD_\w+|INVALID\w*|NULL|N/A|NA|NONE|UNKNOWN|TBD|TODO|XXX|###|---|
PLACEHOLDER|TEMP|TEST|DUMMY` searched case-insensitively; `\w*` and the
unanchored search reduce every alternative to substring containment, and
`BAD_\w+` to `BAD_` followed by a word character. -/
def placeholderHit (s : String) : Bool :=
  let u := upperChars s
  containsBADunderscore u ||
    anyContains ["INVALID", "NULL", "N/A", "NA", "NONE", "UNKNOWN", "TBD", "TODO",
      "XXX", "###", "---", "PLACEHOLDER", "TEMP", "TEST", "DUMMY"] u

/-- Modelled from the spec: the placeholder vocabulary exactly as claim
C7 and the spec's detector table list it — `BAD_*`, `INVALID*`, `N/A`,
`NA`, `NONE`, `UNKNOWN`, `TBD`, `TODO`, `XXX`, `###`, `---`,
`PLACEHOLDER`, `TEMP`, `TEST`, `DUMMY` — with no `NULL` entry.  Kept
separate so it can be compared with `placeholderHit`, the vocabulary the
code actually uses. -/
def claimPlaceholderHit (s : String) : Bool :=
  let u := upperChars s
  containsBADunderscore u ||
    anyContains ["INVALID", "N/A", "NA", "NONE", "UNKNOWN", "TBD", "TODO",
      "XXX", "###", "---", "PLACEHOLDER", "TEMP", "TEST", "DUMMY"] u

/-- First-occurrence deduplication under Python value equality:
`Series.unique()`. -/
def pyUniqueFrom (seen : List Cell) : List Cell → List Cell
  | [] => []
  | c :: cs =>
      if seen.any (fun d => dupEqCell d c) then pyUniqueFrom seen cs
      else c :: pyUniqueFrom (c :: seen) cs

def pyUnique (l : List Cell) : List Cell := pyUniqueFrom [] l

/-- A character of the local part of the email regex
`[a-zA-Z0-9._%+-]`. -/
def isLocalChar (c : Char) : Bool :=
  c.isAlpha || c.isDigit || c == '.' || c == '_' || c == '%' || c == '+' || c == '-'

/-- A character of the domain part `[a-zA-Z0-9.-]`. -/
def isDomChar (c : Char) : Bool :=
  c.isAlpha || c.isDigit || c == '.' || c == '-'

/-- `re.match(r'^[a-zA-Z0-9._%+-]+@[a-zA-Z0-9.-]+\.[a-zA-Z]{2,}$', s)`
succeeds: split at the first `@` (the local class excludes `@`), then the
domain must split at its last `.` into a nonempty domain-character run
and an alphabetic TLD of length at least 2. -/
def emailMatch (s : String) : Bool :=
  let cs := s.toList
  let loc := cs.takeWhile (fun c => c != '@')
  match cs.dropWhile (fun c => c != '@') with
  | '@' :: dom =>
      let rtld := dom.reverse.takeWhile (fun c => c != '.')
      (match dom.reverse.dropWhile (fun c => c != '.') with
       | '.' :: rpre =>
           !loc.isEmpty && loc.all isLocalChar &&
             !rpre.isEmpty && rpre.all isDomChar &&
             2 ≤ rtld.length && rtld.all (fun c => c.isAlpha)
       | _ => false)
  | _ => false

/-- `re.sub(r'[-\s()\.]', '', str(value))` (line 263): strip dashes,
whitespace, parentheses and dots. -/
def stripPhoneSeps (cs : List Char) : List Char :=
  cs.filter (fun c => !(c == '-' || c.isWhitespace || c == '(' || c == ')' || c == '.'))

/-- `re.match(r'^\+?\d{10,15}$', cleaned)` succeeds. -/
def phoneMatch (s : String) : Bool :=
  let cs := stripPhoneSeps s.toList
  let ds := match cs with
    | '+' :: r => r
    | r => r
  10 ≤ ds.length && ds.length ≤ 15 && ds.all (fun c => c.isDigit)

/-- A parsed timestamp: calendar year plus days since 1970-01-01.  Day
granularity suffices for the detector's comparisons (see the header). -/
structure PDate where
  year : Int
  epochDay : Int
  deriving DecidableEq, Repr

def isLeap (y : Int) : Bool := (y % 4 == 0 && y % 100 != 0) || y % 400 == 0

def daysInMonth (y m : Int) : Int :=
  if m == 2 then (if isLeap y then 29 else 28)
  else if m == 4 || m == 6 || m == 9 || m == 11 then 30
  else 31

/-- Days from civil date (proleptic Gregorian) to the 1970 epoch; the
standard era-based algorithm, exact under truncating integer division. -/
def daysFromCivil (y m d : Int) : Int :=
  let y2 := if m ≤ 2 then y - 1 else y
  let era := (if 0 ≤ y2 then y2 else y2 - 399) / 400
  let yoe := y2 - era * 400
  let mp := if 2 < m then m - 3 else m + 9
  let doy := (153 * mp + 2) / 5 + d - 1
  let doe := yoe * 365 + yoe / 4 - yoe / 100 + doy
  era * 146097 + doe - 719468

/-- `pd.to_datetime` on an ISO `YYYY-MM-DD` string: parse and validate
the calendar date.  (The model restricts the very permissive pandas
parser to ISO date strings; anything else fails to parse.) -/
def parseISODate (s : String) : Option PDate :=
  match s.toList with
  | [y1, y2, y3, y4, '-', m1, m2, '-', d1, d2] =>
      if [y1, y2, y3, y4, m1, m2, d1, d2].all (fun c => c.isDigit) then
        let y : Int := (digitsToNat [y1, y2, y3, y4] : Int)
        let m : Int := (digitsToNat [m1, m2] : Int)
        let d : Int := (digitsToNat [d1, d2] : Int)
        if 1 ≤ m && m ≤ 12 && 1 ≤ d && d ≤ daysInMonth y m then
          some { year := y, epochDay := daysFromCivil y m d }
        else none
      else none
  | _ => none

/-- `pd.to_datetime(value)` on one cell (inside the `try` of lines
299-311): strings parse as ISO dates; ints and floats are nanosecond
offsets from the 1970 epoch (so they land on 1970-01-01); booleans and
nested objects raise. -/
def pdToDatetime : Cell → Option PDate
  | .str s => parseISODate s
  | .int _ => some { year := 1970, epochDay := 0 }
  | .num _ => some { year := 1970, epochDay := 0 }
  | _ => none

/-- Stable insertion into a sorted list: an element goes before the first
existing element it is `le`-related to, so `foldr`-insertion sorting
preserves the original order of ties (like Python's stable `sorted`). -/
def insertLeBy (le : α → α → Bool) (x : α) : List α → List α
  | [] => [x]
  | y :: ys => if le x y then x :: y :: ys else y :: insertLeBy le x ys

/-- Stable ascending sort by `le` (insertion sort). -/
def sortLeBy (le : α → α → Bool) (l : List α) : List α :=
  l.foldr (insertLeBy le) []

/-- `Series.quantile(p)` with the default linear interpolation, over the
already-sorted non-null values. -/
def quantileLinear (l : List Rat) (p : Rat) : Rat :=
  if l.length = 0 then 0
  else
    let h : Rat := qMul p (qSub (l.length : Rat) 1)
    let k : Nat := (ratFloor h).toNat
    let lo := l.getD k 0
    let hi := l.getD (k + 1) lo
    qAdd lo (qMul (qSub h (k : Rat)) (qSub hi lo))

/-- Comma-and-space separated join. -/
def joinComma : List String → String
  | [] => ""
  | [s] => s
  | s :: rest => s ++ ", " ++ joinComma rest

/-- Python `str` of a list of ints, e.g. `[1, 2, 3]` (used by the
duplicate detector's f-strings). -/
def renderNatList (l : List Nat) : String :=
  "[" ++ joinComma (l.map toString) ++ "]"

def quoteStr (s : String) : String := "\"" ++ s ++ "\""

/-! ## The detectors -/

/-- The missing-value mask of lines 62-69: NaN/None, the empty string,
whitespace-only rendering, or a rendering that lowercases to
`nan`/`none`/`null`. -/
def isMissingCell (c : Cell) : Bool :=
  isNullCell c || c == .str "" || pyStrip (cellStr c) == "" ||
    lowerStr (cellStr c) == "nan" || lowerStr (cellStr c) == "none" ||
    lowerStr (cellStr c) == "null"

/-- Severity ladder of lines 76-83. -/
def missingSeverity (pct : Rat) : String :=
  if 50 < pct then "critical"
  else if 25 < pct then "high"
  else if 10 < pct then "medium"
  else "low"

/-- The row indices the missing-value detector flags in column `j`. -/
def missingIdxs (t : Table) (j : Nat) : List Nat :=
  (List.range t.nRows).filter (fun i => isMissingCell (t.cellAt i j))

/-- One iteration of `detect_missing_values`' column loop (lines 60-98). -/
def missing_issues_at (t : Table) (j : Nat) : List Issue :=
  let idxs := missingIdxs t j
  if 0 < idxs.length then
    let pct : Rat := qMul (qDiv (idxs.length : Rat) (t.nRows : Rat)) 100
    [{ issueType := "missing", severity := missingSeverity pct,
       column := t.colName j,
       recordCount := idxs.length, impactScore := roundTo1 pct,
       affectedRows := mkAffected idxs, totalAffectedRows := idxs.length,
       exampleBadValues := ["NULL", "empty", ""],
       expectedFormat := "Non-empty values",
       exactLocations := locsOf (t.colName j) (fun _ => "NULL/Empty") idxs }]
  else []

/-- `detect_missing_values` (lines 58-98). -/
def detect_missing_values (t : Table) : List Issue :=
  (List.range t.cols.length).flatMap (missing_issues_at t)

/-- The row indices the placeholder detector flags in column `j`. -/
def placeholderIdxs (t : Table) (j : Nat) : List Nat :=
  (List.range t.nRows).filter (fun i => placeholderHit (cellStr (t.cellAt i j)))

/-- One iteration of `detect_null_placeholders`' column loop
(lines 123-147): only object-dtype columns are scanned. -/
def placeholder_issues_at (t : Table) (j : Nat) : List Issue :=
  if isObjectDtype (t.colCells j) then
    let idxs := placeholderIdxs t j
    if 0 < idxs.length then
      let badVals := (pyUnique (idxs.map (fun i => t.cellAt i j))).take 10
      [{ issueType := "invalid", severity := "high", column := t.colName j,
         recordCount := idxs.length, impactScore := impactOf t idxs.length,
         affectedRows := mkAffected idxs, totalAffectedRows := idxs.length,
         exampleBadValues := (badVals.take 5).map cellStr,
         expectedFormat := "Valid data values (no placeholders)",
         exactLocations := mkLocs t j idxs }]
    else []
  else []

/-- `detect_null_placeholders` (lines 100-147). -/
def detect_null_placeholders (t : Table) : List Issue :=
  (List.range t.cols.length).flatMap (placeholder_issues_at t)

/-- Some cell of the frame is an unhashable nested object, in which case
`self.df.duplicated(keep=False)` (line 152) raises `TypeError`. -/
def hasComposite (t : Table) : Bool :=
  (List.range t.nRows).any (fun i =>
    (List.range t.cols.length).any (fun k => isCompCell (t.cellAt i k)))

/-- `duplicate_indices` of line 152-153: rows flagged by
`duplicated(keep=False)`, i.e. rows equal (under hashing, where missing
equals missing) to some other row. -/
def duplicate_indices (t : Table) : List Nat :=
  (List.range t.nRows).filter (fun i =>
    (List.range t.nRows).any (fun j => j != i && rowDupEq t i j))

/-- `matching` of lines 162-165: the rows elementwise `==`-equal to row
`i` (missing values compare unequal even to themselves). -/
def matchingRows (t : Table) (i : Nat) : List Nat :=
  (List.range t.nRows).filter (fun j => rowCmpEq t j i)

/-- The grouping loop of lines 156-169.  The source keeps a `seen` set
updated in lock step with the groups, so `seen` is always exactly the
union of the accumulated groups; the recursion carries the groups alone
and tests membership in their union. -/
def dupGroupsAux (t : Table) : List Nat → List (List Nat) → List (List Nat)
  | [], acc => acc
  | idx :: rest, acc =>
      if idx ∈ acc.flatten then dupGroupsAux t rest acc
      else if 1 < (matchingRows t idx).length then
        dupGroupsAux t rest (acc ++ [matchingRows t idx])
      else dupGroupsAux t rest acc

/-- `duplicate_groups` as assembled by lines 156-169. -/
def duplicate_groups (t : Table) : List (List Nat) :=
  dupGroupsAux t (duplicate_indices t) []

/-- The full-row duplicate issue of lines 155-192 (emitted only when some
row is flagged).  Note `exactLocations` takes the first two rows of each
of the first ten groups, and `duplicateGroups` keeps the first 50 groups
with display row numbers. -/
def full_row_duplicate_issues (t : Table) : List Issue :=
  let idxs := duplicate_indices t
  if 0 < idxs.length then
    let groups := duplicate_groups t
    let adjusted := groups.map (fun g => g.map adjust_row_number)
    [{ issueType := "duplicate",
       severity := if 10 < idxs.length then "high" else "medium",
       column := "all",
       recordCount := idxs.length, impactScore := impactOf t idxs.length,
       affectedRows := mkAffected idxs, totalAffectedRows := idxs.length,
       exampleBadValues := (adjusted.take 3).map (fun g => "Rows " ++ renderNatList g),
       expectedFormat := "Unique records",
       exactLocations := (groups.take 10).flatMap (fun g =>
         (g.take 2).map (fun idx =>
           { row := adjust_row_number idx, column := "all",
             value := "Duplicate of rows " ++ renderNatList (g.map adjust_row_number) })),
       duplicateGroups := some (adjusted.take 50) }]
  else []

/-- The row indices of the key-column duplicate scan for column `j`:
non-null cells whose value occurs at least twice in the column
(`Series.duplicated(keep=False) & notna()`, line 197). -/
def keydupIdxs (t : Table) (j : Nat) : List Nat :=
  (List.range t.nRows).filter (fun i =>
    !isNullCell (t.cellAt i j) &&
      1 < (List.range t.nRows).countP (fun k => dupEqCell (t.cellAt k j) (t.cellAt i j)))

/-- One iteration of the key-column loop of lines 195-218 (columns whose
name contains `id`, `code` or `sku`). -/
def keydup_issues_at (t : Table) (j : Nat) : List Issue :=
  if nameHasAny (t.colName j) ["id", "code", "sku"] then
    let idxs := keydupIdxs t j
    if 0 < idxs.length then
      let dupVals := (pyUnique (idxs.map (fun i => t.cellAt i j))).take 5
      [{ issueType := "duplicate", severity := "high", column := t.colName j,
         recordCount := idxs.length, impactScore := impactOf t idxs.length,
         affectedRows := mkAffected idxs, totalAffectedRows := idxs.length,
         exampleBadValues := dupVals.map cellStr,
         expectedFormat := "Unique identifier values",
         exactLocations := mkLocs t j idxs }]
    else []
  else []

/-- `detect_duplicates` (lines 149-218): raises out of the whole scan if
hashing hits a nested cell; otherwise the full-row issue followed by the
per-key-column issues. -/
def detect_duplicates (t : Table) : Except Unit (List Issue) :=
  if hasComposite t then .error ()
  else .ok (full_row_duplicate_issues t ++
    (List.range t.cols.length).flatMap (keydup_issues_at t))

/-- The `pd.notna(value) and value != ''` guard shared by the value
loops (emails, phones, dates, type mismatches). -/
def presentCell (c : Cell) : Bool := !isNullCell c && c != .str ""

/-- Row indices with an invalid email in column `j` (lines 226-231). -/
def emailIdxs (t : Table) (j : Nat) : List Nat :=
  (List.range t.nRows).filter (fun i =>
    presentCell (t.cellAt i j) && !emailMatch (cellStr (t.cellAt i j)))

/-- One iteration of `detect_invalid_emails`' column loop (lines
224-252): columns whose name contains `email`. -/
def email_issues_at (t : Table) (j : Nat) : List Issue :=
  if nameHasAny (t.colName j) ["email"] then
    let idxs := emailIdxs t j
    if 0 < idxs.length then
      [{ issueType := "invalid", severity := "medium", column := t.colName j,
         recordCount := idxs.length, impactScore := impactOf t idxs.length,
         affectedRows := mkAffected idxs, totalAffectedRows := idxs.length,
         exampleBadValues := (idxs.take 5).map (fun i => cellStr (t.cellAt i j)),
         expectedFormat := "user@domain.com",
         exactLocations := mkLocs t j idxs }]
    else []
  else []

/-- `detect_invalid_emails` (lines 220-252). -/
def detect_invalid_emails (t : Table) : List Issue :=
  (List.range t.cols.length).flatMap (email_issues_at t)

/-- Row indices with an invalid phone in column `j` (lines 258-266). -/
def phoneIdxs (t : Table) (j : Nat) : List Nat :=
  (List.range t.nRows).filter (fun i =>
    presentCell (t.cellAt i j) && !phoneMatch (cellStr (t.cellAt i j)))

/-- One iteration of `detect_invalid_phones`' column loop (lines
256-287): columns whose name contains `phone`. -/
def phone_issues_at (t : Table) (j : Nat) : List Issue :=
  if nameHasAny (t.colName j) ["phone"] then
    let idxs := phoneIdxs t j
    if 0 < idxs.length then
      [{ issueType := "invalid", severity := "medium", column := t.colName j,
         recordCount := idxs.length, impactScore := impactOf t idxs.length,
         affectedRows := mkAffected idxs, totalAffectedRows := idxs.length,
         exampleBadValues := (idxs.take 5).map (fun i => cellStr (t.cellAt i j)),
         expectedFormat := "+[country code][number] (10-15 digits)",
         exactLocations := mkLocs t j idxs }]
    else []
  else []

/-- `detect_invalid_phones` (lines 254-287). -/
def detect_invalid_phones (t : Table) : List Issue :=
  (List.range t.cols.length).flatMap (phone_issues_at t)

/-- The date-column trigger: the name contains `date` or `time`
(line 292). -/
def isDateCol (name : String) : Bool := nameHasAny name ["date", "time"]

/-- Unparseable date cells of column `j` (the `except` of line 310). -/
def invalidDateIdxs (t : Table) (j : Nat) : List Nat :=
  (List.range t.nRows).filter (fun i =>
    presentCell (t.cellAt i j) && (pdToDatetime (t.cellAt i j)).isNone)

/-- Cells parsing to a date strictly after `now` (line 303). -/
def futureDateIdxs (t : Table) (j : Nat) (now : Int) : List Nat :=
  (List.range t.nRows).filter (fun i =>
    presentCell (t.cellAt i j) &&
      match pdToDatetime (t.cellAt i j) with
      | some d => now < d.epochDay
      | none => false)

/-- Cells parsing to a non-future date with year before 1900 or lying
at least `365*50` days before `now` (the `elif` of line 307). -/
def oldDateIdxs (t : Table) (j : Nat) (now : Int) : List Nat :=
  (List.range t.nRows).filter (fun i =>
    presentCell (t.cellAt i j) &&
      match pdToDatetime (t.cellAt i j) with
      | some d => !(now < d.epochDay) && (d.year < 1900 || d.epochDay ≤ now - 18250)
      | none => false)

/-- The invalid-format issue of lines 314-333. -/
def invalid_date_issues_at (t : Table) (j : Nat) : List Issue :=
  let idxs := invalidDateIdxs t j
  if 0 < idxs.length then
    [{ issueType := "invalid", severity := "medium", column := t.colName j,
       recordCount := idxs.length, impactScore := impactOf t idxs.length,
       affectedRows := mkAffected idxs, totalAffectedRows := idxs.length,
       exampleBadValues := (idxs.take 5).map (fun i => cellStr (t.cellAt i j)),
       expectedFormat := "ISO 8601 (YYYY-MM-DD) or parseable date",
       exactLocations := mkLocs t j idxs }]
  else []

/-- The future-dates issue of lines 336-353; note `affectedRows` is
capped at 100 here. -/
def future_date_issues_at (t : Table) (j : Nat) (now : Int) : List Issue :=
  let idxs := futureDateIdxs t j now
  if 0 < idxs.length then
    [{ issueType := "inconsistent", severity := "medium", column := t.colName j,
       recordCount := idxs.length, impactScore := impactOf t idxs.length,
       affectedRows := mkAffected (idxs.take 100), totalAffectedRows := idxs.length,
       exampleBadValues := (idxs.take 5).map (fun i => cellStr (t.cellAt i j)),
       expectedFormat := "Dates not in the future",
       exactLocations := mkLocs t j idxs }]
  else []

/-- The obsolete-dates issue of lines 356-373: emitted only when more
than five cells qualify; `affectedRows` capped at 100. -/
def old_date_issues_at (t : Table) (j : Nat) (now : Int) : List Issue :=
  let idxs := oldDateIdxs t j now
  if 5 < idxs.length then
    [{ issueType := "obsolete", severity := "low", column := t.colName j,
       recordCount := idxs.length, impactScore := impactOf t idxs.length,
       affectedRows := mkAffected (idxs.take 100), totalAffectedRows := idxs.length,
       exampleBadValues := (idxs.take 5).map (fun i => cellStr (t.cellAt i j)),
       expectedFormat := "Recent dates",
       exactLocations := mkLocs t j idxs }]
  else []

/-- `detect_invalid_dates` (lines 289-373): per qualifying column, the
invalid-format, future and obsolete issues in that order. -/
def detect_invalid_dates (t : Table) (now : Int) : List Issue :=
  (List.range t.cols.length).flatMap (fun j =>
    if isDateCol (t.colName j) then
      invalid_date_issues_at t j ++ future_date_issues_at t j now ++
        old_date_issues_at t j now
    else [])

/-- Keyword list of line 377. -/
def negative_keywords : List String :=
  ["price", "amount", "quantity", "count", "total", "qty", "cost", "balance", "age"]

/-- Rows whose cell coerces to a negative number (lines 383-385). -/
def negativeIdxs (t : Table) (j : Nat) : List Nat :=
  (List.range t.nRows).filter (fun i =>
    match toNumericCoerce (t.cellAt i j) with
    | some q => decide (q < 0)
    | none => false)

/-- One iteration of `detect_negative_values`' column loop (lines
379-408); the body's `try/except` never fires because `to_numeric`
coerces rather than raises. -/
def negative_issues_at (t : Table) (j : Nat) : List Issue :=
  if nameHasAny (t.colName j) negative_keywords then
    let idxs := negativeIdxs t j
    if 0 < idxs.length then
      [{ issueType := "invalid", severity := "high", column := t.colName j,
         recordCount := idxs.length, impactScore := impactOf t idxs.length,
         affectedRows := mkAffected idxs, totalAffectedRows := idxs.length,
         exampleBadValues := (idxs.take 5).map (fun i =>
           match toNumericCoerce (t.cellAt i j) with
           | some q => qRender q
           | none => "nan"),
         expectedFormat := "Positive or zero values",
         exactLocations := mkLocs t j idxs }]
    else []
  else []

/-- `detect_negative_values` (lines 375-408). -/
def detect_negative_values (t : Table) : List Issue :=
  (List.range t.cols.length).flatMap (negative_issues_at t)

/-- Sorted non-null values of numeric column `j` (what `quantile`
interpolates over). -/
def colSortedVals (t : Table) (j : Nat) : List Rat :=
  sortLeBy (fun a b => decide (a ≤ b)) ((t.colCells j).filterMap cellNumOpt)

/-- `Q1 = self.df[col].quantile(0.25)` (line 416). -/
def outlierQ1 (t : Table) (j : Nat) : Rat := quantileLinear (colSortedVals t j) (Rat.divInt 1 4)

/-- `Q3 = self.df[col].quantile(0.75)` (line 417). -/
def outlierQ3 (t : Table) (j : Nat) : Rat := quantileLinear (colSortedVals t j) (Rat.divInt 3 4)

/-- `lower_bound = Q1 - 3 * IQR` (line 420). -/
def outlierLB (t : Table) (j : Nat) : Rat :=
  qSub (outlierQ1 t j) (qMul 3 (qSub (outlierQ3 t j) (outlierQ1 t j)))

/-- `upper_bound = Q3 + 3 * IQR` (line 421). -/
def outlierUB (t : Table) (j : Nat) : Rat :=
  qAdd (outlierQ3 t j) (qMul 3 (qSub (outlierQ3 t j) (outlierQ1 t j)))

/-- `outlier_mask = (col < lower_bound) | (col > upper_bound)` (lines
423-424); NaN compares false on both sides. -/
def outlierIdxs (t : Table) (j : Nat) : List Nat :=
  (List.range t.nRows).filter (fun i =>
    match cellNumOpt (t.cellAt i j) with
    | some v => decide (v < outlierLB t j) || decide (outlierUB t j < v)
    | none => false)

/-- One iteration of `detect_outliers`' column loop (lines 412-445):
numeric-dtype columns with more than 10 non-null values; the issue is
emitted when the outlier count is nonzero and below a tenth of the row
count (`len < total_rows * 0.1`, read in exact arithmetic — the binary
rounding of the float literal `0.1` is outside the model). -/
def outlier_issues_at (t : Table) (j : Nat) : List Issue :=
  if isNumericDtype (t.colCells j) &&
      10 < (t.colCells j).countP (fun c => (cellNumOpt c).isSome) then
    let idxs := outlierIdxs t j
    if 0 < idxs.length && 10 * idxs.length < t.nRows then
      [{ issueType := "outlier", severity := "low", column := t.colName j,
         recordCount := idxs.length, impactScore := impactOf t idxs.length,
         affectedRows := mkAffected idxs, totalAffectedRows := idxs.length,
         exampleBadValues := (idxs.take 5).map (fun i => cellStr (t.cellAt i j)),
         expectedFormat := "Between " ++ qRender (outlierLB t j) ++ " and " ++
           qRender (outlierUB t j),
         exactLocations := mkLocs t j idxs }]
    else []
  else []

/-- `detect_outliers` (lines 410-445). -/
def detect_outliers (t : Table) : List Issue :=
  (List.range t.cols.length).flatMap (outlier_issues_at t)

/-- The whitespace defect of line 455: a string cell that differs from
its stripped form or contains a double space. -/
def whitespaceBad : Cell → Bool
  | .str s => s != pyStrip s || containsChars [' ', ' '] s.toList
  | _ => false

def whitespaceIdxs (t : Table) (j : Nat) : List Nat :=
  (List.range t.nRows).filter (fun i => whitespaceBad (t.cellAt i j))

/-- One iteration of `detect_whitespace_issues`' column loop (lines
449-475): object-dtype columns, reported only past five hits; the
rendered values are quoted in both the examples and the locations. -/
def whitespace_issues_at (t : Table) (j : Nat) : List Issue :=
  if isObjectDtype (t.colCells j) then
    let idxs := whitespaceIdxs t j
    if 5 < idxs.length then
      [{ issueType := "inconsistent", severity := "low", column := t.colName j,
         recordCount := idxs.length, impactScore := impactOf t idxs.length,
         affectedRows := mkAffected idxs, totalAffectedRows := idxs.length,
         exampleBadValues := (idxs.take 5).map (fun i => quoteStr (cellStr (t.cellAt i j))),
         expectedFormat := "Trimmed text without extra spaces",
         exactLocations := locsOf (t.colName j)
           (fun i => quoteStr (cellStr (t.cellAt i j))) idxs }]
    else []
  else []

/-- `detect_whitespace_issues` (lines 447-475). -/
def detect_whitespace_issues (t : Table) : List Issue :=
  (List.range t.cols.length).flatMap (whitespace_issues_at t)

/-- The four format classes of lines 487-494. -/
inductive DFormat where
  | iso
  | us
  | eu
  | other
  deriving DecidableEq, Repr

def twoDigits : Char → Char → Bool := fun a b => a.isDigit && b.isDigit

/-- `re.match(r'\d{4}-\d{2}-\d{2}', s)`: a prefix check. -/
def isIsoPre : List Char → Bool
  | a :: b :: c :: d :: '-' :: e :: f :: '-' :: g :: h :: _ =>
      a.isDigit && b.isDigit && c.isDigit && d.isDigit &&
        twoDigits e f && twoDigits g h
  | _ => false

/-- `re.match(r'\d{2}/\d{2}/\d{4}', s)`. -/
def isUsPre : List Char → Bool
  | a :: b :: '/' :: c :: d :: '/' :: e :: f :: g :: h :: _ =>
      twoDigits a b && twoDigits c d &&
        e.isDigit && f.isDigit && g.isDigit && h.isDigit
  | _ => false

/-- `re.match(r'\d{2}-\d{2}-\d{4}', s)`. -/
def isEuPre : List Char → Bool
  | a :: b :: '-' :: c :: d :: '-' :: e :: f :: g :: h :: _ =>
      twoDigits a b && twoDigits c d &&
        e.isDigit && f.isDigit && g.isDigit && h.isDigit
  | _ => false

/-- The classification cascade of lines 487-494 (ISO, then US, then EU,
else OTHER) on the rendered value. -/
def classifyFormat (s : String) : DFormat :=
  if isIsoPre s.toList then .iso
  else if isUsPre s.toList then .us
  else if isEuPre s.toList then .eu
  else .other

/-- Insert an index into the `formats_found` association list, keeping
first-seen key order (Python dict insertion order). -/
def addToClass (fmt : DFormat) (i : Nat) :
    List (DFormat × List Nat) → List (DFormat × List Nat)
  | [] => [(fmt, [i])]
  | (f, is) :: rest =>
      if f = fmt then (f, is ++ [i]) :: rest
      else (f, is) :: addToClass fmt i rest

/-- `formats_found` of lines 483-498 for column `j`: each non-null cell's
index filed under its format class, in row order. -/
def formatsFound (t : Table) (j : Nat) : List (DFormat × List Nat) :=
  ((List.range t.nRows).filter (fun i => !isNullCell (t.cellAt i j))).foldl
    (fun acc i => addToClass (classifyFormat (cellStr (t.cellAt i j))) i acc) []

/-- `minority_indices` of lines 501-503: classes stably sorted by size
ascending, the largest (last) dropped, the rest concatenated. -/
def minorityIdxs (t : Table) (j : Nat) : List Nat :=
  ((sortLeBy (fun a b => decide (a.2.length ≤ b.2.length)) (formatsFound t j)).dropLast).flatMap
    (fun c => c.2)

/-- One iteration of `detect_format_inconsistencies`' column loop (lines
479-522): object-dtype `date`-named columns with more than 10 non-null
values and several format classes. -/
def format_issues_at (t : Table) (j : Nat) : List Issue :=
  if isObjectDtype (t.colCells j) &&
      10 < (t.colCells j).countP (fun c => !isNullCell c) &&
      nameHasAny (t.colName j) ["date"] then
    if 1 < (formatsFound t j).length then
      let idxs := minorityIdxs t j
      if 0 < idxs.length then
        [{ issueType := "inconsistent", severity := "medium", column := t.colName j,
           recordCount := idxs.length, impactScore := impactOf t idxs.length,
           affectedRows := mkAffected idxs, totalAffectedRows := idxs.length,
           exampleBadValues := (idxs.take 5).map (fun i => cellStr (t.cellAt i j)),
           expectedFormat := "Consistent date format (preferably ISO 8601)",
           exactLocations := mkLocs t j idxs }]
      else []
    else []
  else []

/-- `detect_format_inconsistencies` (lines 477-522). -/
def detect_format_inconsistencies (t : Table) : List Issue :=
  (List.range t.cols.length).flatMap (format_issues_at t)

/-- The foreign-key vocabulary of lines 527-535, in dict insertion
order. -/
def fk_patterns : List (String × String) :=
  [("productid", "product"), ("customerid", "customer"), ("orderid", "order"),
   ("warehouseid", "warehouse"), ("inventoryid", "inventory"),
   ("userid", "user"), ("categoryid", "category")]

/-- Rows whose cell coerces to a number outside `[0, 100000]` (lines
543-547; the `& notna()` conjunct is implied by the strict
comparisons). -/
def referentialIdxs (t : Table) (j : Nat) : List Nat :=
  (List.range t.nRows).filter (fun i =>
    match toNumericCoerce (t.cellAt i j) with
    | some q => decide (100000 < q) || decide (q < 0)
    | none => false)

/-- One iteration of `detect_referential_integrity`'s column loop (lines
537-570): every matching vocabulary entry fires (there is no `break`);
the `try/except` never fires because `to_numeric` coerces. -/
def referential_issues_at (t : Table) (j : Nat) : List Issue :=
  fk_patterns.flatMap (fun pat =>
    if containsChars pat.1.toList (lowerStr (t.colName j)).toList then
      let idxs := referentialIdxs t j
      if 0 < idxs.length then
        [{ issueType := "referential_integrity", severity := "high",
           column := t.colName j,
           recordCount := idxs.length, impactScore := impactOf t idxs.length,
           affectedRows := mkAffected idxs, totalAffectedRows := idxs.length,
           exampleBadValues := (idxs.take 5).map (fun i => cellStr (t.cellAt i j)),
           expectedFormat := "Valid " ++ pat.2 ++ " IDs (1-100000)",
           exactLocations := mkLocs t j idxs }]
      else []
    else [])

/-- `detect_referential_integrity` (lines 524-570). -/
def detect_referential_integrity (t : Table) : List Issue :=
  (List.range t.cols.length).flatMap (referential_issues_at t)

/-- Keyword list of line 576. -/
def tm_keywords : List String :=
  ["id", "count", "number", "qty", "quantity", "amount", "price"]

/-- Rows whose present cell fails `float(value)` (lines 579-584). -/
def typeMismatchIdxs (t : Table) (j : Nat) : List Nat :=
  (List.range t.nRows).filter (fun i =>
    presentCell (t.cellAt i j) && !floatParses (t.cellAt i j))

/-- One iteration of `detect_data_type_mismatches`' column loop (lines
574-605). -/
def typemismatch_issues_at (t : Table) (j : Nat) : List Issue :=
  if nameHasAny (t.colName j) tm_keywords then
    let idxs := typeMismatchIdxs t j
    if 0 < idxs.length then
      [{ issueType := "invalid", severity := "medium", column := t.colName j,
         recordCount := idxs.length, impactScore := impactOf t idxs.length,
         affectedRows := mkAffected idxs, totalAffectedRows := idxs.length,
         exampleBadValues := (idxs.take 5).map (fun i => cellStr (t.cellAt i j)),
         expectedFormat := "Numeric values",
         exactLocations := mkLocs t j idxs }]
    else []
  else []

/-- `detect_data_type_mismatches` (lines 572-605). -/
def detect_data_type_mismatches (t : Table) : List Issue :=
  (List.range t.cols.length).flatMap (typemismatch_issues_at t)

/-! ## The engine and the score aggregator -/

/-- `detect_all_issues` (lines 23-42): the twelve detectors in source
order, their issues appended to one list.  There is no exception handling
here: the single fallible call (`detect_duplicates`, the third) aborts
the whole scan when it raises, so the issues of the detectors that ran
before it are lost with it (an error output, exactly as the process
behaves). -/
def detect_all_issues (t : Table) (now : Int) : Except Unit (List Issue) :=
  match detect_duplicates t with
  | .error e => .error e
  | .ok dups =>
      .ok (detect_missing_values t ++ detect_null_placeholders t ++ dups ++
        detect_invalid_emails t ++ detect_invalid_phones t ++
        detect_invalid_dates t now ++ detect_negative_values t ++
        detect_outliers t ++ detect_whitespace_issues t ++
        detect_format_inconsistencies t ++ detect_referential_integrity t ++
        detect_data_type_mismatches t)

/-- The mutable state of a `DataQualityDetector` instance: the loaded
frame and the accumulated `self.issues` list (initialised empty by
`__init__` and never cleared). -/
structure DetectorState where
  table : Table
  issues : List Issue
  deriving DecidableEq, Repr

/-- One call of the `detect_all_issues` method on an instance: the fresh
detections are appended to `self.issues` and that whole accumulated list
is returned (line 42 returns `self.issues`). -/
def run_detect_all (s : DetectorState) (now : Int) :
    Except Unit (DetectorState × List Issue) :=
  match detect_all_issues s.table now with
  | .error e => .error e
  | .ok l => .ok ({ table := s.table, issues := s.issues ++ l }, s.issues ++ l)

/-- The seven dimension accumulators of lines 610-618. -/
structure Dims where
  accuracy : Rat
  completeness : Rat
  consistency : Rat
  uniqueness : Rat
  validity : Rat
  timeliness : Rat
  integrity : Rat
  deriving DecidableEq, Repr

/-- One iteration of the deduction loop (lines 621-638): the issue's
`impactScore` capped at 100, times the per-type multiplier, off the
type's dimension(s). -/
def dimsStep (s : Dims) (i : Issue) : Dims :=
  let impact := min i.impactScore 100
  if i.issueType = "missing" then
    { s with completeness := qSub s.completeness (qMul impact (Rat.divInt 5 10)) }
  else if i.issueType = "invalid" then
    { s with validity := qSub s.validity (qMul impact (Rat.divInt 3 10)),
             accuracy := qSub s.accuracy (qMul impact (Rat.divInt 2 10)) }
  else if i.issueType = "duplicate" then
    { s with uniqueness := qSub s.uniqueness (qMul impact (Rat.divInt 5 10)) }
  else if i.issueType = "inconsistent" then
    { s with consistency := qSub s.consistency (qMul impact (Rat.divInt 3 10)) }
  else if i.issueType = "outlier" then
    { s with accuracy := qSub s.accuracy (qMul impact (Rat.divInt 1 10)) }
  else if i.issueType = "obsolete" then
    { s with timeliness := qSub s.timeliness (qMul impact (Rat.divInt 3 10)) }
  else if i.issueType = "referential_integrity" then
    { s with integrity := qSub s.integrity (qMul impact (Rat.divInt 4 10)) }
  else s

/-- The result record of `calculate_quality_scores`. -/
structure QualityScores where
  accuracy : Rat
  completeness : Rat
  consistency : Rat
  uniqueness : Rat
  validity : Rat
  timeliness : Rat
  integrity : Rat
  overallScore : Rat
  deriving DecidableEq, Repr

/-- `calculate_quality_scores` (lines 607-656): start every dimension at
100, run the deduction loop, clamp each dimension with
`max(0, round(score, 1))`, then the weighted overall score rounded to
one decimal. -/
def calculate_quality_scores (issues : List Issue) : QualityScores :=
  let d := issues.foldl dimsStep
    { accuracy := 100, completeness := 100, consistency := 100, uniqueness := 100,
      validity := 100, timeliness := 100, integrity := 100 }
  let acc := max 0 (roundTo1 d.accuracy)
  let comp := max 0 (roundTo1 d.completeness)
  let cons := max 0 (roundTo1 d.consistency)
  let uniq := max 0 (roundTo1 d.uniqueness)
  let val := max 0 (roundTo1 d.validity)
  let tim := max 0 (roundTo1 d.timeliness)
  let integ := max 0 (roundTo1 d.integrity)
  { accuracy := acc, completeness := comp, consistency := cons, uniqueness := uniq,
    validity := val, timeliness := tim, integrity := integ,
    overallScore := roundTo1 (qAdd (qAdd (qAdd (qAdd (qAdd (qAdd
      (qMul acc (Rat.divInt 20 100)) (qMul comp (Rat.divInt 20 100)))
      (qMul cons (Rat.divInt 15 100))) (qMul uniq (Rat.divInt 10 100)))
      (qMul val (Rat.divInt 20 100))) (qMul tim (Rat.divInt 5 100)))
      (qMul integ (Rat.divInt 10 100))) }

/-! ## Shared structural lemmas -/

theorem mkAffected_length (idxs : List Nat) : (mkAffected idxs).length = idxs.length := by
  simp [mkAffected]

theorem locsOf_row_eq (col : String) (vf : Nat → String) (idxs : List Nat) :
    (locsOf col vf idxs).map ExactLoc.row = (mkAffected idxs).take 20 := by
  unfold locsOf mkAffected
  rw [← List.map_take, List.map_map]
  rfl

theorem locsOf_value_eq (col : String) (vf : Nat → String) (idxs : List Nat) :
    ∀ loc ∈ locsOf col vf idxs, loc.value = vf (loc.row - 1) := by
  intro loc h
  unfold locsOf at h
  simp only [List.mem_map] at h
  obtain ⟨i, _, rfl⟩ := h
  simp [adjust_row_number]

/-! ## The score aggregator as a sum of independent deductions -/

/-- What one issue deducts from `accuracy`. -/
def dAccuracy (i : Issue) : Rat :=
  if i.issueType = "invalid" then min i.impactScore 100 * (2/10)
  else if i.issueType = "outlier" then min i.impactScore 100 * (1/10)
  else 0

/-- What one issue deducts from `completeness`. -/
def dCompleteness (i : Issue) : Rat :=
  if i.issueType = "missing" then min i.impactScore 100 * (5/10) else 0

/-- What one issue deducts from `consistency`. -/
def dConsistency (i : Issue) : Rat :=
  if i.issueType = "inconsistent" then min i.impactScore 100 * (3/10) else 0

/-- What one issue deducts from `uniqueness`. -/
def dUniqueness (i : Issue) : Rat :=
  if i.issueType = "duplicate" then min i.impactScore 100 * (5/10) else 0

/-- What one issue deducts from `validity`. -/
def dValidity (i : Issue) : Rat :=
  if i.issueType = "invalid" then min i.impactScore 100 * (3/10) else 0

/-- What one issue deducts from `timeliness`. -/
def dTimeliness (i : Issue) : Rat :=
  if i.issueType = "obsolete" then min i.impactScore 100 * (3/10) else 0

/-- What one issue deducts from `integrity`. -/
def dIntegrity (i : Issue) : Rat :=
  if i.issueType = "referential_integrity" then min i.impactScore 100 * (4/10) else 0

theorem dimsStep_eq (d : Dims) (i : Issue) :
    dimsStep d i =
      { accuracy := d.accuracy - dAccuracy i,
        completeness := d.completeness - dCompleteness i,
        consistency := d.consistency - dConsistency i,
        uniqueness := d.uniqueness - dUniqueness i,
        validity := d.validity - dValidity i,
        timeliness := d.timeliness - dTimeliness i,
        integrity := d.integrity - dIntegrity i } := by
  simp only [dimsStep, dAccuracy, dCompleteness, dConsistency, dUniqueness, dValidity,
    dTimeliness, dIntegrity]
  split_ifs <;> simp_all [Dims.mk.injEq, qSub_eq, qMul_eq, Rat.divInt_eq_div]

/-- The deduction loop is the pointwise difference of 100 and a sum of
independent per-issue deductions. -/
theorem foldl_dimsStep (l : List Issue) (d : Dims) :
    l.foldl dimsStep d =
      { accuracy := d.accuracy - (l.map dAccuracy).sum,
        completeness := d.completeness - (l.map dCompleteness).sum,
        consistency := d.consistency - (l.map dConsistency).sum,
        uniqueness := d.uniqueness - (l.map dUniqueness).sum,
        validity := d.validity - (l.map dValidity).sum,
        timeliness := d.timeliness - (l.map dTimeliness).sum,
        integrity := d.integrity - (l.map dIntegrity).sum } := by
  induction l generalizing d with
  | nil => cases d; simp
  | cons i l ih =>
      rw [List.foldl_cons, ih, dimsStep_eq]
      simp [Dims.mk.injEq, sub_sub]

/-! ## Claim C1 -/

/-- Table with a nested (unhashable) cell, over which row hashing
raises. -/
def exTableComp : Table :=
  { cols := ["a", "b"], rows := [[Cell.str "", Cell.comp "obj"]] }

/-- C1, as stated, is false: `detect_all_issues` contains no exception
handling, so the fault the duplicate detector hits on a nested cell
propagates and aborts the whole scan — no other detector contributes
anything, instead of "all other detectors still run". -/
theorem C1_counterexample :
    detect_all_issues exTableComp 0 = .error () ∧
    detect_duplicates exTableComp = .error () ∧
    (detect_missing_values exTableComp).length = 1 := by
  refine ⟨rfl, rfl, ?_⟩
  decide

/-- C1 (amended): `detect_all_issues` itself never catches anything; a
scan succeeds exactly when the one fallible operation — row hashing over
the frame in `detect_duplicates` — has no unhashable nested cell to
choke on.  Every other detector is total (their `try/except` blocks are
ordinary control flow), so on a frame of JSON scalars the scan always
returns; on a frame with a nested cell it always aborts. -/
theorem C1_fault_propagation_theorem (t : Table) (now : Int) :
    (detect_all_issues t now).isOk = !hasComposite t := by
  unfold detect_all_issues detect_duplicates
  cases h : hasComposite t <;> simp [h, Except.isOk, Except.toBool]

/-! ## Claim C5 -/

/-- C5: `calculate_quality_scores` starts every dimension at 100,
subtracts the fixed per-type multiples of the capped impact scores,
clamps with `max 0` and rounds to one decimal (each dimension is the
clamped rounding of `100` minus the sum of its per-issue deductions,
every per-issue deduction using `min impactScore 100`), every dimension
is nonnegative, and `overallScore` is the stated weighted sum of the
final dimensions rounded to one decimal, with the weights summing to
exactly 1. -/
theorem C5_score_aggregator_theorem (l : List Issue) :
    (calculate_quality_scores l).accuracy = max 0 (roundTo1 (100 - (l.map dAccuracy).sum)) ∧
    (calculate_quality_scores l).completeness = max 0 (roundTo1 (100 - (l.map dCompleteness).sum)) ∧
    (calculate_quality_scores l).consistency = max 0 (roundTo1 (100 - (l.map dConsistency).sum)) ∧
    (calculate_quality_scores l).uniqueness = max 0 (roundTo1 (100 - (l.map dUniqueness).sum)) ∧
    (calculate_quality_scores l).validity = max 0 (roundTo1 (100 - (l.map dValidity).sum)) ∧
    (calculate_quality_scores l).timeliness = max 0 (roundTo1 (100 - (l.map dTimeliness).sum)) ∧
    (calculate_quality_scores l).integrity = max 0 (roundTo1 (100 - (l.map dIntegrity).sum)) ∧
    0 ≤ (calculate_quality_scores l).accuracy ∧
    0 ≤ (calculate_quality_scores l).completeness ∧
    0 ≤ (calculate_quality_scores l).consistency ∧
    0 ≤ (calculate_quality_scores l).uniqueness ∧
    0 ≤ (calculate_quality_scores l).validity ∧
    0 ≤ (calculate_quality_scores l).timeliness ∧
    0 ≤ (calculate_quality_scores l).integrity ∧
    (calculate_quality_scores l).overallScore =
      roundTo1 ((calculate_quality_scores l).accuracy * (20/100) +
        (calculate_quality_scores l).completeness * (20/100) +
        (calculate_quality_scores l).consistency * (15/100) +
        (calculate_quality_scores l).uniqueness * (10/100) +
        (calculate_quality_scores l).validity * (20/100) +
        (calculate_quality_scores l).timeliness * (5/100) +
        (calculate_quality_scores l).integrity * (10/100)) ∧
    ((20 : Rat)/100 + 20/100 + 15/100 + 10/100 + 20/100 + 5/100 + 10/100 = 1) := by
  simp only [calculate_quality_scores, foldl_dimsStep, qAdd_eq, qMul_eq, Rat.divInt_eq_div]
  and_intros <;> first | trivial | exact le_max_left 0 _ | norm_num

/-! ## Claim C8 -/

/-- C8: the aggregator is a pure function of the issue list and is
order-independent — permuting the issue list leaves every score
unchanged, because each dimension is 100 minus a sum of independent
per-issue deductions, and the clamping/rounding happens only after all
deductions. -/
theorem C8_order_independence_theorem (l₁ l₂ : List Issue) (h : l₁.Perm l₂) :
    calculate_quality_scores l₁ = calculate_quality_scores l₂ := by
  simp only [calculate_quality_scores, foldl_dimsStep]
  rw [(h.map dAccuracy).sum_eq, (h.map dCompleteness).sum_eq, (h.map dConsistency).sum_eq,
    (h.map dUniqueness).sum_eq, (h.map dValidity).sum_eq, (h.map dTimeliness).sum_eq,
    (h.map dIntegrity).sum_eq]

/-- A missing issue and a duplicate issue with different impacts. -/
def exIssueA : Issue :=
  { issueType := "missing", severity := "low", column := "a", recordCount := 1,
    impactScore := 10, affectedRows := [1], totalAffectedRows := 1,
    exampleBadValues := [], expectedFormat := "", exactLocations := [] }

def exIssueB : Issue :=
  { issueType := "duplicate", severity := "high", column := "all", recordCount := 2,
    impactScore := 40, affectedRows := [1, 2], totalAffectedRows := 2,
    exampleBadValues := [], expectedFormat := "", exactLocations := [] }

theorem C8_order_independence_witness :
    ([exIssueA, exIssueB] : List Issue).Perm [exIssueB, exIssueA] ∧
    calculate_quality_scores [exIssueA, exIssueB] =
      calculate_quality_scores [exIssueB, exIssueA] :=
  ⟨by decide, C8_order_independence_theorem _ _ (by decide)⟩

/-! ## Per-detector issue shape lemmas -/

theorem wf_missing (t : Table) (j : Nat) :
    ∀ iss ∈ missing_issues_at t j,
      iss.affectedRows.length = iss.recordCount ∧
      iss.exactLocations.map ExactLoc.row = iss.affectedRows.take 20 ∧
      iss.impactScore = impactOf t iss.recordCount := by
  intro iss h
  simp only [missing_issues_at] at h
  split at h
  · simp only [List.mem_singleton] at h
    subst h
    exact ⟨mkAffected_length _, locsOf_row_eq _ _ _, rfl⟩
  · simp at h

theorem wf_placeholder (t : Table) (j : Nat) :
    ∀ iss ∈ placeholder_issues_at t j,
      iss.affectedRows.length = iss.recordCount ∧
      iss.exactLocations.map ExactLoc.row = iss.affectedRows.take 20 ∧
      iss.impactScore = impactOf t iss.recordCount := by
  intro iss h
  simp only [placeholder_issues_at] at h
  split at h
  · split at h
    · simp only [List.mem_singleton] at h
      subst h
      exact ⟨mkAffected_length _, locsOf_row_eq _ _ _, rfl⟩
    · simp at h
  · simp at h

theorem wf_keydup (t : Table) (j : Nat) :
    ∀ iss ∈ keydup_issues_at t j,
      iss.affectedRows.length = iss.recordCount ∧
      iss.exactLocations.map ExactLoc.row = iss.affectedRows.take 20 ∧
      iss.impactScore = impactOf t iss.recordCount := by
  intro iss h
  simp only [keydup_issues_at] at h
  split at h
  · split at h
    · simp only [List.mem_singleton] at h
      subst h
      exact ⟨mkAffected_length _, locsOf_row_eq _ _ _, rfl⟩
    · simp at h
  · simp at h

theorem wf_email (t : Table) (j : Nat) :
    ∀ iss ∈ email_issues_at t j,
      iss.affectedRows.length = iss.recordCount ∧
      iss.exactLocations.map ExactLoc.row = iss.affectedRows.take 20 ∧
      iss.impactScore = impactOf t iss.recordCount := by
  intro iss h
  simp only [email_issues_at] at h
  split at h
  · split at h
    · simp only [List.mem_singleton] at h
      subst h
      exact ⟨mkAffected_length _, locsOf_row_eq _ _ _, rfl⟩
    · simp at h
  · simp at h

theorem wf_phone (t : Table) (j : Nat) :
    ∀ iss ∈ phone_issues_at t j,
      iss.affectedRows.length = iss.recordCount ∧
      iss.exactLocations.map ExactLoc.row = iss.affectedRows.take 20 ∧
      iss.impactScore = impactOf t iss.recordCount := by
  intro iss h
  simp only [phone_issues_at] at h
  split at h
  · split at h
    · simp only [List.mem_singleton] at h
      subst h
      exact ⟨mkAffected_length _, locsOf_row_eq _ _ _, rfl⟩
    · simp at h
  · simp at h

theorem wf_invalid_date (t : Table) (j : Nat) :
    ∀ iss ∈ invalid_date_issues_at t j,
      iss.affectedRows.length = iss.recordCount ∧
      iss.exactLocations.map ExactLoc.row = iss.affectedRows.take 20 ∧
      iss.impactScore = impactOf t iss.recordCount := by
  intro iss h
  simp only [invalid_date_issues_at] at h
  split at h
  · simp only [List.mem_singleton] at h
    subst h
    exact ⟨mkAffected_length _, locsOf_row_eq _ _ _, rfl⟩
  · simp at h

theorem wf_negative (t : Table) (j : Nat) :
    ∀ iss ∈ negative_issues_at t j,
      iss.affectedRows.length = iss.recordCount ∧
      iss.exactLocations.map ExactLoc.row = iss.affectedRows.take 20 ∧
      iss.impactScore = impactOf t iss.recordCount := by
  intro iss h
  simp only [negative_issues_at] at h
  split at h
  · split at h
    · simp only [List.mem_singleton] at h
      subst h
      exact ⟨mkAffected_length _, locsOf_row_eq _ _ _, rfl⟩
    · simp at h
  · simp at h

theorem wf_outlier (t : Table) (j : Nat) :
    ∀ iss ∈ outlier_issues_at t j,
      iss.affectedRows.length = iss.recordCount ∧
      iss.exactLocations.map ExactLoc.row = iss.affectedRows.take 20 ∧
      iss.impactScore = impactOf t iss.recordCount := by
  intro iss h
  simp only [outlier_issues_at] at h
  split at h
  · split at h
    · simp only [List.mem_singleton] at h
      subst h
      exact ⟨mkAffected_length _, locsOf_row_eq _ _ _, rfl⟩
    · simp at h
  · simp at h

theorem wf_whitespace (t : Table) (j : Nat) :
    ∀ iss ∈ whitespace_issues_at t j,
      iss.affectedRows.length = iss.recordCount ∧
      iss.exactLocations.map ExactLoc.row = iss.affectedRows.take 20 ∧
      iss.impactScore = impactOf t iss.recordCount := by
  intro iss h
  simp only [whitespace_issues_at] at h
  split at h
  · split at h
    · simp only [List.mem_singleton] at h
      subst h
      exact ⟨mkAffected_length _, locsOf_row_eq _ _ _, rfl⟩
    · simp at h
  · simp at h

theorem wf_format (t : Table) (j : Nat) :
    ∀ iss ∈ format_issues_at t j,
      iss.affectedRows.length = iss.recordCount ∧
      iss.exactLocations.map ExactLoc.row = iss.affectedRows.take 20 ∧
      iss.impactScore = impactOf t iss.recordCount := by
  intro iss h
  simp only [format_issues_at] at h
  split at h
  · split at h
    · split at h
      · simp only [List.mem_singleton] at h
        subst h
        exact ⟨mkAffected_length _, locsOf_row_eq _ _ _, rfl⟩
      · simp at h
    · simp at h
  · simp at h

theorem wf_referential (t : Table) (j : Nat) :
    ∀ iss ∈ referential_issues_at t j,
      iss.affectedRows.length = iss.recordCount ∧
      iss.exactLocations.map ExactLoc.row = iss.affectedRows.take 20 ∧
      iss.impactScore = impactOf t iss.recordCount := by
  intro iss h
  simp only [referential_issues_at, List.mem_flatMap] at h
  obtain ⟨pat, _, h⟩ := h
  split at h
  · split at h
    · simp only [List.mem_singleton] at h
      subst h
      exact ⟨mkAffected_length _, locsOf_row_eq _ _ _, rfl⟩
    · simp at h
  · simp at h

theorem wf_typemismatch (t : Table) (j : Nat) :
    ∀ iss ∈ typemismatch_issues_at t j,
      iss.affectedRows.length = iss.recordCount ∧
      iss.exactLocations.map ExactLoc.row = iss.affectedRows.take 20 ∧
      iss.impactScore = impactOf t iss.recordCount := by
  intro iss h
  simp only [typemismatch_issues_at] at h
  split at h
  · split at h
    · simp only [List.mem_singleton] at h
      subst h
      exact ⟨mkAffected_length _, locsOf_row_eq _ _ _, rfl⟩
    · simp at h
  · simp at h

theorem wf_future (t : Table) (j : Nat) (now : Int) :
    ∀ iss ∈ future_date_issues_at t j now,
      iss.affectedRows.length = min iss.recordCount 100 ∧
      iss.exactLocations.map ExactLoc.row = iss.affectedRows.take 20 ∧
      iss.impactScore = impactOf t iss.recordCount := by
  intro iss h
  simp only [future_date_issues_at] at h
  split at h
  · simp only [List.mem_singleton] at h
    subst h
    refine ⟨?_, ?_, rfl⟩
    · simp [mkAffected, Nat.min_comm]
    · unfold mkLocs
      rw [locsOf_row_eq]
      simp [mkAffected, List.map_take, List.take_take]
  · simp at h

theorem wf_old (t : Table) (j : Nat) (now : Int) :
    ∀ iss ∈ old_date_issues_at t j now,
      iss.affectedRows.length = min iss.recordCount 100 ∧
      iss.exactLocations.map ExactLoc.row = iss.affectedRows.take 20 ∧
      iss.impactScore = impactOf t iss.recordCount := by
  intro iss h
  simp only [old_date_issues_at] at h
  split at h
  · simp only [List.mem_singleton] at h
    subst h
    refine ⟨?_, ?_, rfl⟩
    · simp [mkAffected, Nat.min_comm]
    · unfold mkLocs
      rw [locsOf_row_eq]
      simp [mkAffected, List.map_take, List.take_take]
  · simp at h

theorem wf_duprow (t : Table) :
    ∀ iss ∈ full_row_duplicate_issues t,
      iss.affectedRows.length = iss.recordCount ∧
      iss.impactScore = impactOf t iss.recordCount ∧
      iss.affectedRows = mkAffected (duplicate_indices t) ∧
      iss.duplicateGroups =
        some (((duplicate_groups t).map (fun g => g.map adjust_row_number)).take 50) := by
  intro iss h
  simp only [full_row_duplicate_issues] at h
  split at h
  · simp only [List.mem_singleton] at h
    subst h
    exact ⟨mkAffected_length _, rfl, rfl, rfl⟩
  · simp at h

instance {ε α : Type} [DecidableEq ε] [DecidableEq α] : DecidableEq (Except ε α) := fun x y =>
  match x, y with
  | .ok a, .ok b =>
      if h : a = b then isTrue (by rw [h]) else isFalse (fun he => h (Except.ok.inj he))
  | .error e, .error f =>
      if h : e = f then isTrue (by rw [h]) else isFalse (fun he => h (Except.error.inj he))
  | .ok _, .error _ => isFalse (fun he => Except.noConfusion he)
  | .error _, .ok _ => isFalse (fun he => Except.noConfusion he)

/-! ## Claim C2 -/

/-- C2 (amended): for every detector except the full-row duplicate
detector, `affectedRows` has exactly `recordCount` entries (the future-
and obsolete-date detectors cap it at 100, so its length is
`min recordCount 100`), and the rows of `exactLocations` are exactly the
first `min (len affectedRows) 20` entries of `affectedRows` in order.
The full-row duplicate issue is the exception the counterexample
exhibits: its `exactLocations` take the first two rows of each of the
first ten duplicate groups, which need not be a prefix of
`affectedRows`. -/
theorem C2_locations_shape_theorem (t : Table) (j : Nat) (now : Int) :
    (∀ iss ∈ missing_issues_at t j, iss.affectedRows.length = iss.recordCount ∧
      iss.exactLocations.map ExactLoc.row = iss.affectedRows.take 20) ∧
    (∀ iss ∈ placeholder_issues_at t j, iss.affectedRows.length = iss.recordCount ∧
      iss.exactLocations.map ExactLoc.row = iss.affectedRows.take 20) ∧
    (∀ iss ∈ keydup_issues_at t j, iss.affectedRows.length = iss.recordCount ∧
      iss.exactLocations.map ExactLoc.row = iss.affectedRows.take 20) ∧
    (∀ iss ∈ email_issues_at t j, iss.affectedRows.length = iss.recordCount ∧
      iss.exactLocations.map ExactLoc.row = iss.affectedRows.take 20) ∧
    (∀ iss ∈ phone_issues_at t j, iss.affectedRows.length = iss.recordCount ∧
      iss.exactLocations.map ExactLoc.row = iss.affectedRows.take 20) ∧
    (∀ iss ∈ invalid_date_issues_at t j, iss.affectedRows.length = iss.recordCount ∧
      iss.exactLocations.map ExactLoc.row = iss.affectedRows.take 20) ∧
    (∀ iss ∈ negative_issues_at t j, iss.affectedRows.length = iss.recordCount ∧
      iss.exactLocations.map ExactLoc.row = iss.affectedRows.take 20) ∧
    (∀ iss ∈ outlier_issues_at t j, iss.affectedRows.length = iss.recordCount ∧
      iss.exactLocations.map ExactLoc.row = iss.affectedRows.take 20) ∧
    (∀ iss ∈ whitespace_issues_at t j, iss.affectedRows.length = iss.recordCount ∧
      iss.exactLocations.map ExactLoc.row = iss.affectedRows.take 20) ∧
    (∀ iss ∈ format_issues_at t j, iss.affectedRows.length = iss.recordCount ∧
      iss.exactLocations.map ExactLoc.row = iss.affectedRows.take 20) ∧
    (∀ iss ∈ referential_issues_at t j, iss.affectedRows.length = iss.recordCount ∧
      iss.exactLocations.map ExactLoc.row = iss.affectedRows.take 20) ∧
    (∀ iss ∈ typemismatch_issues_at t j, iss.affectedRows.length = iss.recordCount ∧
      iss.exactLocations.map ExactLoc.row = iss.affectedRows.take 20) ∧
    (∀ iss ∈ future_date_issues_at t j now,
      iss.affectedRows.length = min iss.recordCount 100 ∧
      iss.exactLocations.map ExactLoc.row = iss.affectedRows.take 20) ∧
    (∀ iss ∈ old_date_issues_at t j now,
      iss.affectedRows.length = min iss.recordCount 100 ∧
      iss.exactLocations.map ExactLoc.row = iss.affectedRows.take 20) := by
  refine ⟨fun iss h => ⟨(wf_missing t j iss h).1, (wf_missing t j iss h).2.1⟩,
    fun iss h => ⟨(wf_placeholder t j iss h).1, (wf_placeholder t j iss h).2.1⟩,
    fun iss h => ⟨(wf_keydup t j iss h).1, (wf_keydup t j iss h).2.1⟩,
    fun iss h => ⟨(wf_email t j iss h).1, (wf_email t j iss h).2.1⟩,
    fun iss h => ⟨(wf_phone t j iss h).1, (wf_phone t j iss h).2.1⟩,
    fun iss h => ⟨(wf_invalid_date t j iss h).1, (wf_invalid_date t j iss h).2.1⟩,
    fun iss h => ⟨(wf_negative t j iss h).1, (wf_negative t j iss h).2.1⟩,
    fun iss h => ⟨(wf_outlier t j iss h).1, (wf_outlier t j iss h).2.1⟩,
    fun iss h => ⟨(wf_whitespace t j iss h).1, (wf_whitespace t j iss h).2.1⟩,
    fun iss h => ⟨(wf_format t j iss h).1, (wf_format t j iss h).2.1⟩,
    fun iss h => ⟨(wf_referential t j iss h).1, (wf_referential t j iss h).2.1⟩,
    fun iss h => ⟨(wf_typemismatch t j iss h).1, (wf_typemismatch t j iss h).2.1⟩,
    fun iss h => ⟨(wf_future t j now iss h).1, (wf_future t j now iss h).2.1⟩,
    fun iss h => ⟨(wf_old t j now iss h).1, (wf_old t j now iss h).2.1⟩⟩

/-- A harmless placeholder record used only as the default of `getD`. -/
def blankIssue : Issue :=
  { issueType := "", severity := "", column := "", recordCount := 0, impactScore := 0,
    affectedRows := [], totalAffectedRows := 0, exampleBadValues := [],
    expectedFormat := "", exactLocations := [] }

/-- Three identical rows followed by two identical rows. -/
def exTableDupShape : Table :=
  { cols := ["a"],
    rows := [[.int 1], [.int 1], [.int 1], [.int 2], [.int 2]] }

/-- C2, as stated, is false for the full-row duplicate detector: on a
table with a group of three and a group of two identical rows, the
issue's `affectedRows` is `[1, 2, 3, 4, 5]` while `exactLocations` lists
rows `[1, 2, 4, 5]` (the first two rows of each group) — not a prefix,
and not of length `min (len affectedRows) 20`. -/
theorem C2_locations_shape_counterexample :
    (full_row_duplicate_issues exTableDupShape).length = 1 ∧
    ((full_row_duplicate_issues exTableDupShape).getD 0 blankIssue).affectedRows =
      [1, 2, 3, 4, 5] ∧
    ((full_row_duplicate_issues exTableDupShape).getD 0 blankIssue).exactLocations.map
      ExactLoc.row = [1, 2, 4, 5] ∧
    ¬(((full_row_duplicate_issues exTableDupShape).getD 0 blankIssue).exactLocations.map
        ExactLoc.row =
      ((full_row_duplicate_issues exTableDupShape).getD 0 blankIssue).affectedRows.take 20) ∧
    ((full_row_duplicate_issues exTableDupShape).getD 0 blankIssue).exactLocations.length ≠
      min ((full_row_duplicate_issues exTableDupShape).getD 0 blankIssue).affectedRows.length
        20 := by
  decide

/-- One null cell out of two rows in column `m`. -/
def exTableC2 : Table := { cols := ["m"], rows := [[.null], [.str "x"]] }

/-- The missing-value issue `exTableC2` produces. -/
def issueC2 : Issue :=
  { issueType := "missing", severity := "high", column := "m", recordCount := 1,
    impactScore := 50, affectedRows := [1], totalAffectedRows := 1,
    exampleBadValues := ["NULL", "empty", ""], expectedFormat := "Non-empty values",
    exactLocations := [{ row := 1, column := "m", value := "NULL/Empty" }] }

theorem C2_locations_shape_witness :
    issueC2 ∈ missing_issues_at exTableC2 0 ∧
    issueC2.affectedRows.length = issueC2.recordCount ∧
    issueC2.exactLocations.map ExactLoc.row = issueC2.affectedRows.take 20 :=
  ⟨by decide, ((C2_locations_shape_theorem exTableC2 0 0).1 issueC2 (by decide)).1,
    ((C2_locations_shape_theorem exTableC2 0 0).1 issueC2 (by decide)).2⟩

/-! ## Claim C4 -/

/-- C4: every issue the full scan emits stores
`impactScore = round(recordCount / totalRows * 100, 1)` — the plain
uncapped expression (capping at 100 is applied only when the score
aggregator consumes the issue, see the `min` in `dimsStep`). -/
theorem C4_impact_formula_theorem (t : Table) (now : Int) (l : List Issue)
    (_hrows : 0 < t.nRows) (hok : detect_all_issues t now = .ok l) :
    ∀ iss ∈ l, iss.impactScore = roundTo1 ((iss.recordCount : Rat) / (t.nRows : Rat) * 100) := by
  have himp : ∀ iss : Issue, iss.impactScore = impactOf t iss.recordCount →
      iss.impactScore = roundTo1 ((iss.recordCount : Rat) / (t.nRows : Rat) * 100) := by
    intro iss h
    rw [h, impactOf, qMul_eq, qDiv_eq]
  intro iss hm
  unfold detect_all_issues at hok
  cases hd : detect_duplicates t with
  | error e => rw [hd] at hok; cases hok
  | ok dups =>
      rw [hd] at hok
      have hl := Except.ok.inj hok
      subst hl
      have hdups : dups = full_row_duplicate_issues t ++
          (List.range t.cols.length).flatMap (keydup_issues_at t) := by
        unfold detect_duplicates at hd
        split at hd
        · cases hd
        · exact (Except.ok.inj hd).symm
      rw [hdups] at hm
      simp only [List.mem_append, or_assoc] at hm
      rcases hm with hm | hm | hm | hm | hm | hm | hm | hm | hm | hm | hm | hm | hm
      · obtain ⟨j, _, hj⟩ := List.mem_flatMap.mp hm
        exact himp _ (wf_missing t j iss hj).2.2
      · obtain ⟨j, _, hj⟩ := List.mem_flatMap.mp hm
        exact himp _ (wf_placeholder t j iss hj).2.2
      · exact himp _ (wf_duprow t iss hm).2.1
      · obtain ⟨j, _, hj⟩ := List.mem_flatMap.mp hm
        exact himp _ (wf_keydup t j iss hj).2.2
      · obtain ⟨j, _, hj⟩ := List.mem_flatMap.mp hm
        exact himp _ (wf_email t j iss hj).2.2
      · obtain ⟨j, _, hj⟩ := List.mem_flatMap.mp hm
        exact himp _ (wf_phone t j iss hj).2.2
      · obtain ⟨j, _, hj⟩ := List.mem_flatMap.mp hm
        split at hj
        · simp only [List.mem_append, or_assoc] at hj
          rcases hj with hj | hj | hj
          · exact himp _ (wf_invalid_date t j iss hj).2.2
          · exact himp _ (wf_future t j now iss hj).2.2
          · exact himp _ (wf_old t j now iss hj).2.2
        · simp at hj
      · obtain ⟨j, _, hj⟩ := List.mem_flatMap.mp hm
        exact himp _ (wf_negative t j iss hj).2.2
      · obtain ⟨j, _, hj⟩ := List.mem_flatMap.mp hm
        exact himp _ (wf_outlier t j iss hj).2.2
      · obtain ⟨j, _, hj⟩ := List.mem_flatMap.mp hm
        exact himp _ (wf_whitespace t j iss hj).2.2
      · obtain ⟨j, _, hj⟩ := List.mem_flatMap.mp hm
        exact himp _ (wf_format t j iss hj).2.2
      · obtain ⟨j, _, hj⟩ := List.mem_flatMap.mp hm
        exact himp _ (wf_referential t j iss hj).2.2
      · obtain ⟨j, _, hj⟩ := List.mem_flatMap.mp hm
        exact himp _ (wf_typemismatch t j iss hj).2.2

/-- A numeric-named column with one non-numeric string. -/
def exTableC4 : Table := { cols := ["qty"], rows := [[.str "abc"], [.int 2]] }

/-- The type-mismatch issue `exTableC4` produces. -/
def issueC4 : Issue :=
  { issueType := "invalid", severity := "medium", column := "qty", recordCount := 1,
    impactScore := 50, affectedRows := [1], totalAffectedRows := 1,
    exampleBadValues := ["abc"], expectedFormat := "Numeric values",
    exactLocations := [{ row := 1, column := "qty", value := "abc" }] }

theorem C4_impact_formula_witness :
    0 < exTableC4.nRows ∧ detect_all_issues exTableC4 0 = .ok [issueC4] ∧
    issueC4.impactScore =
      roundTo1 ((issueC4.recordCount : Rat) / (exTableC4.nRows : Rat) * 100) :=
  ⟨by decide, by decide,
    C4_impact_formula_theorem exTableC4 0 [issueC4] (by decide) (by decide) issueC4
      (by decide)⟩

/-! ## Claim C10 -/

theorem mkLocs_value (t : Table) (j : Nat) (idxs : List Nat) :
    ∀ loc ∈ mkLocs t j idxs, loc.value = cellStr (t.cellAt (loc.row - 1) j) :=
  locsOf_value_eq _ _ _

/-- C10 (amended): a missing-values issue always carries the fixed
literal `exampleBadValues = ['NULL', 'empty', '']` and every one of its
`exactLocations` stores the constant string `'NULL/Empty'` instead of
the offending cell's contents.  The cell-level detectors do record the
rendered cell value in `exactLocations` — except the whitespace detector,
which wraps it in double quotes, and the full-row duplicate detector,
which stores a group description (`'Duplicate of rows [...]'`), not a
cell value at all (the counterexample). -/
theorem C10_missing_constants_theorem (t : Table) (j : Nat) (now : Int) :
    (∀ iss ∈ missing_issues_at t j,
      iss.exampleBadValues = ["NULL", "empty", ""] ∧
      ∀ loc ∈ iss.exactLocations, loc.value = "NULL/Empty") ∧
    (∀ iss ∈ placeholder_issues_at t j, ∀ loc ∈ iss.exactLocations,
      loc.value = cellStr (t.cellAt (loc.row - 1) j)) ∧
    (∀ iss ∈ keydup_issues_at t j, ∀ loc ∈ iss.exactLocations,
      loc.value = cellStr (t.cellAt (loc.row - 1) j)) ∧
    (∀ iss ∈ email_issues_at t j, ∀ loc ∈ iss.exactLocations,
      loc.value = cellStr (t.cellAt (loc.row - 1) j)) ∧
    (∀ iss ∈ phone_issues_at t j, ∀ loc ∈ iss.exactLocations,
      loc.value = cellStr (t.cellAt (loc.row - 1) j)) ∧
    (∀ iss ∈ invalid_date_issues_at t j, ∀ loc ∈ iss.exactLocations,
      loc.value = cellStr (t.cellAt (loc.row - 1) j)) ∧
    (∀ iss ∈ future_date_issues_at t j now, ∀ loc ∈ iss.exactLocations,
      loc.value = cellStr (t.cellAt (loc.row - 1) j)) ∧
    (∀ iss ∈ old_date_issues_at t j now, ∀ loc ∈ iss.exactLocations,
      loc.value = cellStr (t.cellAt (loc.row - 1) j)) ∧
    (∀ iss ∈ negative_issues_at t j, ∀ loc ∈ iss.exactLocations,
      loc.value = cellStr (t.cellAt (loc.row - 1) j)) ∧
    (∀ iss ∈ outlier_issues_at t j, ∀ loc ∈ iss.exactLocations,
      loc.value = cellStr (t.cellAt (loc.row - 1) j)) ∧
    (∀ iss ∈ format_issues_at t j, ∀ loc ∈ iss.exactLocations,
      loc.value = cellStr (t.cellAt (loc.row - 1) j)) ∧
    (∀ iss ∈ referential_issues_at t j, ∀ loc ∈ iss.exactLocations,
      loc.value = cellStr (t.cellAt (loc.row - 1) j)) ∧
    (∀ iss ∈ typemismatch_issues_at t j, ∀ loc ∈ iss.exactLocations,
      loc.value = cellStr (t.cellAt (loc.row - 1) j)) ∧
    (∀ iss ∈ whitespace_issues_at t j, ∀ loc ∈ iss.exactLocations,
      loc.value = quoteStr (cellStr (t.cellAt (loc.row - 1) j))) ∧
    (∀ iss ∈ full_row_duplicate_issues t, ∀ loc ∈ iss.exactLocations,
      ∃ g ∈ duplicate_groups t,
        loc.value = "Duplicate of rows " ++ renderNatList (g.map adjust_row_number)) := by
  refine ⟨?_, ?_, ?_, ?_, ?_, ?_, ?_, ?_, ?_, ?_, ?_, ?_, ?_, ?_, ?_⟩
  · intro iss h
    simp only [missing_issues_at] at h
    split at h
    · simp only [List.mem_singleton] at h
      subst h
      exact ⟨rfl, locsOf_value_eq _ _ _⟩
    · simp at h
  · intro iss h
    simp only [placeholder_issues_at] at h
    split at h
    · split at h
      · simp only [List.mem_singleton] at h
        subst h
        exact mkLocs_value _ _ _
      · simp at h
    · simp at h
  · intro iss h
    simp only [keydup_issues_at] at h
    split at h
    · split at h
      · simp only [List.mem_singleton] at h
        subst h
        exact mkLocs_value _ _ _
      · simp at h
    · simp at h
  · intro iss h
    simp only [email_issues_at] at h
    split at h
    · split at h
      · simp only [List.mem_singleton] at h
        subst h
        exact mkLocs_value _ _ _
      · simp at h
    · simp at h
  · intro iss h
    simp only [phone_issues_at] at h
    split at h
    · split at h
      · simp only [List.mem_singleton] at h
        subst h
        exact mkLocs_value _ _ _
      · simp at h
    · simp at h
  · intro iss h
    simp only [invalid_date_issues_at] at h
    split at h
    · simp only [List.mem_singleton] at h
      subst h
      exact mkLocs_value _ _ _
    · simp at h
  · intro iss h
    simp only [future_date_issues_at] at h
    split at h
    · simp only [List.mem_singleton] at h
      subst h
      exact mkLocs_value _ _ _
    · simp at h
  · intro iss h
    simp only [old_date_issues_at] at h
    split at h
    · simp only [List.mem_singleton] at h
      subst h
      exact mkLocs_value _ _ _
    · simp at h
  · intro iss h
    simp only [negative_issues_at] at h
    split at h
    · split at h
      · simp only [List.mem_singleton] at h
        subst h
        exact mkLocs_value _ _ _
      · simp at h
    · simp at h
  · intro iss h
    simp only [outlier_issues_at] at h
    split at h
    · split at h
      · simp only [List.mem_singleton] at h
        subst h
        exact mkLocs_value _ _ _
      · simp at h
    · simp at h
  · intro iss h
    simp only [format_issues_at] at h
    split at h
    · split at h
      · split at h
        · simp only [List.mem_singleton] at h
          subst h
          exact mkLocs_value _ _ _
        · simp at h
      · simp at h
    · simp at h
  · intro iss h
    simp only [referential_issues_at, List.mem_flatMap] at h
    obtain ⟨pat, _, h⟩ := h
    split at h
    · split at h
      · simp only [List.mem_singleton] at h
        subst h
        exact mkLocs_value _ _ _
      · simp at h
    · simp at h
  · intro iss h
    simp only [typemismatch_issues_at] at h
    split at h
    · split at h
      · simp only [List.mem_singleton] at h
        subst h
        exact mkLocs_value _ _ _
      · simp at h
    · simp at h
  · intro iss h
    simp only [whitespace_issues_at] at h
    split at h
    · split at h
      · simp only [List.mem_singleton] at h
        subst h
        exact locsOf_value_eq _ _ _
      · simp at h
    · simp at h
  · intro iss h
    simp only [full_row_duplicate_issues] at h
    split at h
    · simp only [List.mem_singleton] at h
      subst h
      intro loc hl
      simp only [List.mem_flatMap, List.mem_map] at hl
      obtain ⟨g, hg, idx, _, rfl⟩ := hl
      exact ⟨g, List.mem_of_mem_take hg, rfl⟩
    · simp at h

/-- Two identical single-cell rows. -/
def exTableC10 : Table := { cols := ["a"], rows := [[.int 1], [.int 1]] }

/-- C10's comparative clause ("every other detector records the real
cell value") is false: the full-row duplicate issue's location values
are group descriptions, not the rendered cell value. -/
theorem C10_missing_constants_counterexample :
    ((full_row_duplicate_issues exTableC10).getD 0 blankIssue).exactLocations.map
      ExactLoc.value = ["Duplicate of rows [1, 2]", "Duplicate of rows [1, 2]"] ∧
    cellStr (exTableC10.cellAt 0 0) = "1" ∧
    ("Duplicate of rows [1, 2]" : String) ≠ "1" := by
  decide

/-- One row whose cell renders as the missing sentinel `null`. -/
def exTableC10w : Table := { cols := ["w"], rows := [[.str "null"]] }

/-- The missing-value issue `exTableC10w` produces. -/
def issueC10 : Issue :=
  { issueType := "missing", severity := "critical", column := "w", recordCount := 1,
    impactScore := 100, affectedRows := [1], totalAffectedRows := 1,
    exampleBadValues := ["NULL", "empty", ""], expectedFormat := "Non-empty values",
    exactLocations := [{ row := 1, column := "w", value := "NULL/Empty" }] }

theorem C10_missing_constants_witness :
    issueC10 ∈ missing_issues_at exTableC10w 0 ∧
    issueC10.exampleBadValues = ["NULL", "empty", ""] ∧
    (⟨1, "w", "NULL/Empty"⟩ : ExactLoc) ∈ issueC10.exactLocations ∧
    (⟨1, "w", "NULL/Empty"⟩ : ExactLoc).value = "NULL/Empty" :=
  ⟨by decide, ((C10_missing_constants_theorem exTableC10w 0 0).1 issueC10 (by decide)).1,
    by decide,
    ((C10_missing_constants_theorem exTableC10w 0 0).1 issueC10 (by decide)).2 _ (by decide)⟩

/-! ## Claim C6 -/

/-- C6: for a numeric-dtype column with more than 10 non-null values, a
cell value strictly outside `[Q1 - 3*IQR, Q3 + 3*IQR]` (the bounds the
detector computes, with Q1/Q3 the linearly interpolated 25th/75th
percentiles of the non-null values) is always flagged, a value strictly
inside is never flagged (boundary values excluded by the strict masks),
the issue is emitted exactly when the outlier count is nonzero and under
a tenth of the row count, and the emitted issue's `affectedRows` are
precisely the flagged rows. -/
theorem C6_outlier_bounds_theorem (t : Table) (j i : Nat) (v : Rat)
    (hnum : isNumericDtype (t.colCells j) = true)
    (hcnt : 10 < (t.colCells j).countP (fun c => (cellNumOpt c).isSome))
    (hi : i < t.nRows)
    (hv : cellNumOpt (t.cellAt i j) = some v) :
    ((v < outlierLB t j ∨ outlierUB t j < v) → i ∈ outlierIdxs t j) ∧
    ((outlierLB t j < v ∧ v < outlierUB t j) → i ∉ outlierIdxs t j) ∧
    (outlier_issues_at t j ≠ [] ↔
      0 < (outlierIdxs t j).length ∧ 10 * (outlierIdxs t j).length < t.nRows) ∧
    (∀ iss ∈ outlier_issues_at t j, iss.affectedRows = mkAffected (outlierIdxs t j)) := by
  have hguard : (isNumericDtype (t.colCells j) &&
      decide (10 < (t.colCells j).countP (fun c => (cellNumOpt c).isSome))) = true := by
    simp [hnum, hcnt]
  refine ⟨?_, ?_, ?_, ?_⟩
  · intro h
    simp only [outlierIdxs, List.mem_filter, List.mem_range]
    refine ⟨hi, ?_⟩
    simp only [hv]
    rcases h with h | h <;> simp [h]
  · intro h hmem
    simp only [outlierIdxs, List.mem_filter, List.mem_range, hv] at hmem
    rcases hmem with ⟨-, hmem⟩
    rcases Bool.or_eq_true_iff.mp hmem with hb | hb
    · exact absurd (of_decide_eq_true hb) (not_lt.mpr (le_of_lt h.1))
    · exact absurd (of_decide_eq_true hb) (not_lt.mpr (le_of_lt h.2))
  · simp only [outlier_issues_at, hguard, if_true]
    by_cases h1 : 0 < (outlierIdxs t j).length ∧ 10 * (outlierIdxs t j).length < t.nRows
    · have hcond : (decide (0 < (outlierIdxs t j).length) &&
          decide (10 * (outlierIdxs t j).length < t.nRows)) = true := by
        simp [h1.1, h1.2]
      rw [if_pos hcond]
      simp [h1]
    · have hcond : ¬((decide (0 < (outlierIdxs t j).length) &&
          decide (10 * (outlierIdxs t j).length < t.nRows)) = true) := by
        simp only [Bool.and_eq_true, decide_eq_true_eq]
        exact h1
      rw [if_neg hcond]
      simp [h1]
  · intro iss h
    simp only [outlier_issues_at, hguard, if_true] at h
    split at h
    · simp only [List.mem_singleton] at h
      subst h
      rfl
    · simp at h

/-- Eleven small values plus one extreme value in a numeric column. -/
def exTableC6 : Table :=
  { cols := ["x"],
    rows := [[.int 1], [.int 2], [.int 3], [.int 4], [.int 5], [.int 6], [.int 7],
      [.int 8], [.int 9], [.int 10], [.int 11], [.int 1000]] }

theorem C6_outlier_bounds_witness :
    isNumericDtype (exTableC6.colCells 0) = true ∧
    10 < (exTableC6.colCells 0).countP (fun c => (cellNumOpt c).isSome) ∧
    cellNumOpt (exTableC6.cellAt 11 0) = some 1000 ∧
    outlierUB exTableC6 0 < 1000 ∧
    11 ∈ outlierIdxs exTableC6 0 :=
  ⟨by decide, by decide, by decide, by decide,
    (C6_outlier_bounds_theorem exTableC6 0 11 1000 (by decide) (by decide) (by decide)
      (by decide)).1 (Or.inr (by decide))⟩

/-! ## Claim C7 -/

/-- C7 (amended): on an object-dtype ("text-typed") column the
placeholder detector flags exactly the rows whose rendered cell text
case-insensitively contains a match of the vocabulary, every emitted
issue has type `invalid` and severity `high` — but the vocabulary is the
spec's fifteen entries PLUS a sixteenth, `NULL` (line 105), so the
code's predicate equals the claim's predicate OR a case-insensitive
`NULL` substring match. -/
theorem C7_placeholder_vocab_theorem (t : Table) (j : Nat)
    (hobj : isObjectDtype (t.colCells j) = true) :
    (∀ iss ∈ placeholder_issues_at t j,
      iss.issueType = "invalid" ∧ iss.severity = "high" ∧
      iss.affectedRows = mkAffected (placeholderIdxs t j)) ∧
    (∀ i, i ∈ placeholderIdxs t j ↔
      i < t.nRows ∧ placeholderHit (cellStr (t.cellAt i j)) = true) ∧
    (∀ s, placeholderHit s = true ↔
      (claimPlaceholderHit s = true ∨ containsChars "NULL".toList (upperChars s) = true)) := by
  refine ⟨?_, ?_, ?_⟩
  · intro iss h
    simp only [placeholder_issues_at, hobj, if_true] at h
    split at h
    · simp only [List.mem_singleton] at h
      subst h
      exact ⟨rfl, rfl, rfl⟩
    · simp at h
  · intro i
    simp [placeholderIdxs, List.mem_filter, List.mem_range]
  · intro s
    simp only [placeholderHit, claimPlaceholderHit, anyContains, List.any_cons,
      List.any_nil, Bool.or_false, Bool.or_eq_true]
    tauto

/-- A cell whose text contains `null` but none of the vocabulary entries
the claim lists. -/
def exTableC7 : Table := { cols := ["c"], rows := [[.str "nullify"]] }

/-- C7, as stated, is false: `nullify` matches none of the claim's
fifteen vocabulary entries, yet the detector flags it (the code's regex
also contains `NULL`). -/
theorem C7_placeholder_vocab_counterexample :
    claimPlaceholderHit "nullify" = false ∧
    placeholderHit "nullify" = true ∧
    (placeholder_issues_at exTableC7 0).length = 1 ∧
    ((placeholder_issues_at exTableC7 0).getD 0 blankIssue).affectedRows = [1] ∧
    ((placeholder_issues_at exTableC7 0).getD 0 blankIssue).severity = "high" := by
  decide

/-- A straightforward placeholder cell. -/
def exTableC7w : Table := { cols := ["p"], rows := [[.str "TBD"]] }

theorem C7_placeholder_vocab_witness :
    isObjectDtype (exTableC7w.colCells 0) = true ∧
    (0 ∈ placeholderIdxs exTableC7w 0 ↔
      0 < exTableC7w.nRows ∧ placeholderHit (cellStr (exTableC7w.cellAt 0 0)) = true) :=
  ⟨by decide, (C7_placeholder_vocab_theorem exTableC7w 0 (by decide)).2.1 0⟩

/-! ## Claim C9 -/

/-- C9 (amended): the detection-and-scoring pass is a pure function of
the table, the clock reading, and the instance's accumulated issue list.
A run from a fresh instance returns exactly the detected issues; but
`self.issues` is never cleared, so a second call of `detect_all_issues`
on the same instance returns every issue twice — the two runs are
byte-identical only when the table is issue-free.  (The date detectors
additionally read the wall clock, here the explicit `now` input.) -/
theorem C9_two_run_theorem (t : Table) (now : Int) (l : List Issue)
    (h : detect_all_issues t now = .ok l) :
    run_detect_all { table := t, issues := [] } now = .ok ({ table := t, issues := l }, l) ∧
    run_detect_all { table := t, issues := l } now =
      .ok ({ table := t, issues := l ++ l }, l ++ l) ∧
    (l ≠ [] → l ++ l ≠ l) := by
  refine ⟨?_, ?_, ?_⟩
  · unfold run_detect_all
    rw [h]
    simp
  · unfold run_detect_all
    rw [h]
  · intro hne heq
    have hlen := congrArg List.length heq
    simp only [List.length_append] at hlen
    have : l.length = 0 := by omega
    exact hne (List.length_eq_zero.mp this)

/-- One empty-string cell: the table yields exactly one issue. -/
def exTableC9 : Table := { cols := ["a"], rows := [[.str ""]] }

/-- The missing-value issue `exTableC9` produces. -/
def issueC9 : Issue :=
  { issueType := "missing", severity := "critical", column := "a", recordCount := 1,
    impactScore := 100, affectedRows := [1], totalAffectedRows := 1,
    exampleBadValues := ["NULL", "empty", ""], expectedFormat := "Non-empty values",
    exactLocations := [{ row := 1, column := "a", value := "NULL/Empty" }] }

/-- C9, as stated, is false: calling `detect_all_issues` twice on the
same detector instance returns `[issue]` the first time and
`[issue, issue]` the second (the accumulator is never cleared), and the
quality scores computed from the two returned lists differ. -/
theorem C9_two_run_counterexample :
    run_detect_all { table := exTableC9, issues := [] } 0 =
      .ok ({ table := exTableC9, issues := [issueC9] }, [issueC9]) ∧
    run_detect_all { table := exTableC9, issues := [issueC9] } 0 =
      .ok ({ table := exTableC9, issues := [issueC9, issueC9] }, [issueC9, issueC9]) ∧
    ([issueC9, issueC9] : List Issue) ≠ [issueC9] ∧
    calculate_quality_scores [issueC9, issueC9] ≠ calculate_quality_scores [issueC9] := by
  exact ⟨by decide, by decide, by decide, by decide⟩

/-- One empty-string cell in a column named `z`. -/
def exTableC9w : Table := { cols := ["z"], rows := [[.str ""]] }

/-- The missing-value issue `exTableC9w` produces. -/
def issueC9w : Issue :=
  { issueType := "missing", severity := "critical", column := "z", recordCount := 1,
    impactScore := 100, affectedRows := [1], totalAffectedRows := 1,
    exampleBadValues := ["NULL", "empty", ""], expectedFormat := "Non-empty values",
    exactLocations := [{ row := 1, column := "z", value := "NULL/Empty" }] }

theorem C9_two_run_witness :
    detect_all_issues exTableC9w 0 = .ok [issueC9w] ∧
    run_detect_all { table := exTableC9w, issues := [issueC9w] } 0 =
      .ok ({ table := exTableC9w, issues := [issueC9w] ++ [issueC9w] },
        [issueC9w] ++ [issueC9w]) :=
  ⟨by decide, (C9_two_run_theorem exTableC9w 0 [issueC9w] (by decide)).2.1⟩

/-! ## Claim C3: cell- and row-level equality facts -/

theorem cellPyVal_none_of_strOrComp {c : Cell} (h : isStrOrComp c = true) :
    cellPyVal c = none := by
  cases c <;> simp_all [isStrOrComp, cellPyVal]

set_option maxHeartbeats 1000000 in
theorem valEq_iff (a b : Cell) : valEqNonNull a b = true ↔
    (∃ x, cellPyVal a = some x ∧ cellPyVal b = some x) ∨
    (a = b ∧ isStrOrComp a = true) := by
  cases a <;> cases b <;>
    simp [valEqNonNull, cellPyVal, isStrOrComp, beq_iff_eq] <;>
    aesop

theorem valEq_symm {a b : Cell} (h : valEqNonNull a b = true) : valEqNonNull b a = true := by
  rw [valEq_iff] at h ⊢
  rcases h with ⟨x, h1, h2⟩ | ⟨rfl, hs⟩
  · exact Or.inl ⟨x, h2, h1⟩
  · exact Or.inr ⟨rfl, hs⟩

theorem valEq_trans {a b c : Cell} (h1 : valEqNonNull a b = true)
    (h2 : valEqNonNull b c = true) : valEqNonNull a c = true := by
  rw [valEq_iff] at h1 h2 ⊢
  rcases h1 with ⟨x, ha, hb⟩ | ⟨rfl, hs⟩
  · rcases h2 with ⟨y, hb2, hc⟩ | ⟨rfl, hs2⟩
    · rw [hb] at hb2
      injection hb2 with e
      subst e
      exact Or.inl ⟨x, ha, hc⟩
    · rw [cellPyVal_none_of_strOrComp hs2] at hb
      cases hb
  · rcases h2 with ⟨y, hb2, hc⟩ | ⟨rfl, hs2⟩
    · rw [cellPyVal_none_of_strOrComp hs] at hb2
      cases hb2
    · exact Or.inr ⟨rfl, hs⟩

theorem valEq_selfR {a b : Cell} (h : valEqNonNull a b = true) :
    valEqNonNull b b = true := by
  rw [valEq_iff] at h ⊢
  rcases h with ⟨x, _, hb⟩ | ⟨rfl, hs⟩
  · exact Or.inl ⟨x, hb, hb⟩
  · exact Or.inr ⟨rfl, hs⟩

theorem valEq_refl {a : Cell} (h : isNullCell a = false) : valEqNonNull a a = true := by
  rw [valEq_iff]
  cases a <;> simp_all [cellPyVal, isStrOrComp, isNullCell]

theorem valEq_of_dupEq_left {a b : Cell} (ha : isNullCell a = false)
    (h : dupEqCell a b = true) : valEqNonNull a b = true := by
  simpa [dupEqCell, ha] using h

theorem dupEq_of_valEq {a b : Cell} (h : valEqNonNull a b = true) : dupEqCell a b = true := by
  simp [dupEqCell, h]

/-- The row holds no missing value in any scanned column. -/
def rowNoNull (t : Table) (i : Nat) : Bool :=
  (List.range t.cols.length).all (fun k => !isNullCell (t.cellAt i k))

theorem rowCmpEq_iff {t : Table} {i j : Nat} : rowCmpEq t i j = true ↔
    ∀ k < t.cols.length, valEqNonNull (t.cellAt i k) (t.cellAt j k) = true := by
  simp [rowCmpEq, cmpEqCell, List.all_eq_true, List.mem_range]

theorem rowDupEq_iff {t : Table} {i j : Nat} : rowDupEq t i j = true ↔
    ∀ k < t.cols.length, dupEqCell (t.cellAt i k) (t.cellAt j k) = true := by
  simp [rowDupEq, List.all_eq_true, List.mem_range]

theorem rowCmp_symm {t : Table} {i j : Nat} (h : rowCmpEq t i j = true) :
    rowCmpEq t j i = true := by
  rw [rowCmpEq_iff] at h ⊢
  exact fun k hk => valEq_symm (h k hk)

theorem rowCmp_trans {t : Table} {a b c : Nat} (h1 : rowCmpEq t a b = true)
    (h2 : rowCmpEq t b c = true) : rowCmpEq t a c = true := by
  rw [rowCmpEq_iff] at h1 h2 ⊢
  exact fun k hk => valEq_trans (h1 k hk) (h2 k hk)

theorem rowCmp_selfR {t : Table} {y i : Nat} (h : rowCmpEq t y i = true) :
    rowCmpEq t i i = true := by
  rw [rowCmpEq_iff] at h ⊢
  exact fun k hk => valEq_selfR (h k hk)

theorem rowCmp_refl_of_noNull {t : Table} {i : Nat} (h : rowNoNull t i = true) :
    rowCmpEq t i i = true := by
  rw [rowCmpEq_iff]
  simp only [rowNoNull, List.all_eq_true, List.mem_range] at h
  intro k hk
  exact valEq_refl (by simpa using h k hk)

theorem rowCmp_of_dup_noNull {t : Table} {i j : Nat} (hno : rowNoNull t i = true)
    (h : rowDupEq t i j = true) : rowCmpEq t i j = true := by
  rw [rowDupEq_iff] at h
  rw [rowCmpEq_iff]
  simp only [rowNoNull, List.all_eq_true, List.mem_range] at hno
  intro k hk
  exact valEq_of_dupEq_left (by simpa using hno k hk) (h k hk)

theorem rowDup_of_rowCmp {t : Table} {i j : Nat} (h : rowCmpEq t i j = true) :
    rowDupEq t i j = true := by
  rw [rowCmpEq_iff] at h
  rw [rowDupEq_iff]
  exact fun k hk => dupEq_of_valEq (h k hk)

/-! ## Claim C3: the grouping loop -/

theorem mem_matchingRows {t : Table} {i x : Nat} :
    x ∈ matchingRows t i ↔ x < t.nRows ∧ rowCmpEq t x i = true := by
  simp [matchingRows, List.mem_filter, List.mem_range]

theorem matchingRows_nodup (t : Table) (i : Nat) : (matchingRows t i).Nodup :=
  (List.nodup_range _).filter _

theorem mem_duplicate_indices {t : Table} {x : Nat} :
    x ∈ duplicate_indices t ↔
      x < t.nRows ∧ ∃ j, j < t.nRows ∧ j ≠ x ∧ rowDupEq t x j = true := by
  simp only [duplicate_indices, List.mem_filter, List.mem_range, List.any_eq_true,
    Bool.and_eq_true, bne_iff_ne]

theorem matching_eq_of_mem {t : Table} {i₁ i₂ x : Nat} (h1 : x ∈ matchingRows t i₁)
    (h2 : x ∈ matchingRows t i₂) : matchingRows t i₁ = matchingRows t i₂ := by
  rw [mem_matchingRows] at h1 h2
  have h12 : rowCmpEq t i₁ i₂ = true := rowCmp_trans (rowCmp_symm h1.2) h2.2
  unfold matchingRows
  apply List.filter_congr
  intro j _
  by_cases hj1 : rowCmpEq t j i₁ = true
  · rw [hj1, rowCmp_trans hj1 h12]
  · by_cases hj2 : rowCmpEq t j i₂ = true
    · exact absurd (rowCmp_trans hj2 (rowCmp_symm h12)) hj1
    · rw [Bool.not_eq_true] at hj1 hj2
      rw [hj1, hj2]

theorem two_le_length_of_ne {l : List Nat} {x y : Nat} (hx : x ∈ l) (hy : y ∈ l)
    (hne : x ≠ y) : 2 ≤ l.length := by
  match l with
  | [] => cases hx
  | [a] => simp_all
  | a :: b :: rest => simp [List.length]

theorem exists_other_of_two_le {l : List Nat} (hnd : l.Nodup) (h2 : 2 ≤ l.length)
    {x : Nat} (hx : x ∈ l) : ∃ y ∈ l, y ≠ x := by
  match l, hnd, h2 with
  | a :: b :: rest, hnd, _ =>
      have hab : a ≠ b := by
        intro e
        exact (List.nodup_cons.mp hnd).1 (e ▸ List.mem_cons_self _ _)
      by_cases hax : a = x
      · exact ⟨b, by simp, fun hbx => hab (hax.trans hbx.symm)⟩
      · exact ⟨a, by simp, hax⟩

theorem mem_dup_of_matching {t : Table} {i x : Nat} (hx : x ∈ matchingRows t i)
    (h2 : 2 ≤ (matchingRows t i).length) : x ∈ duplicate_indices t := by
  obtain ⟨y, hy, hyx⟩ := exists_other_of_two_le (matchingRows_nodup t i) h2 hx
  rw [mem_matchingRows] at hx hy
  have hxy : rowCmpEq t x y = true := rowCmp_trans hx.2 (rowCmp_symm hy.2)
  rw [mem_duplicate_indices]
  exact ⟨hx.1, y, hy.1, hyx, rowDup_of_rowCmp hxy⟩

theorem dupGroupsAux_flatten_mono (t : Table) :
    ∀ (todo : List Nat) (acc : List (List Nat)),
      ∀ x ∈ acc.flatten, x ∈ (dupGroupsAux t todo acc).flatten := by
  intro todo
  induction todo with
  | nil => intro acc x hx; exact hx
  | cons idx rest ih =>
      intro acc x hx
      simp only [dupGroupsAux]
      split
      · exact ih acc x hx
      · split
        · apply ih
          rw [List.flatten_append]
          exact List.mem_append_left _ hx
        · exact ih acc x hx

theorem dupGroupsAux_spec (t : Table) :
    ∀ (todo : List Nat) (acc : List (List Nat)),
      (∀ x ∈ todo, x < t.nRows) →
      (∀ g ∈ acc, (∃ i, g = matchingRows t i) ∧ 2 ≤ g.length) →
      List.Pairwise (fun g₁ g₂ => ∀ x ∈ g₁, x ∉ g₂) acc →
      (∀ g ∈ dupGroupsAux t todo acc, (∃ i, g = matchingRows t i) ∧ 2 ≤ g.length) ∧
      List.Pairwise (fun g₁ g₂ => ∀ x ∈ g₁, x ∉ g₂) (dupGroupsAux t todo acc) := by
  intro todo
  induction todo with
  | nil => intro acc _ h1 h2; exact ⟨h1, h2⟩
  | cons idx rest ih =>
      intro acc htodo h1 h2
      have htodo' : ∀ x ∈ rest, x < t.nRows :=
        fun x hx => htodo x (List.mem_cons_of_mem _ hx)
      simp only [dupGroupsAux]
      split
      · exact ih acc htodo' h1 h2
      · rename_i hns
        split
        · rename_i hlen
          apply ih _ htodo'
          · intro g hg
            rcases List.mem_append.mp hg with hg | hg
            · exact h1 g hg
            · simp only [List.mem_singleton] at hg
              subst hg
              exact ⟨⟨idx, rfl⟩, hlen⟩
          · rw [List.pairwise_append]
            refine ⟨h2, List.pairwise_singleton _ _, ?_⟩
            intro g hg m hm
            simp only [List.mem_singleton] at hm
            subst hm
            intro x hxg hxm
            obtain ⟨⟨i₁, rfl⟩, _⟩ := h1 g hg
            have heq : matchingRows t i₁ = matchingRows t idx := matching_eq_of_mem hxg hxm
            have hidx : idx ∈ matchingRows t idx := by
              have hpos : 0 < (matchingRows t idx).length := by omega
              obtain ⟨y, hy⟩ := List.exists_mem_of_length_pos hpos
              rw [mem_matchingRows] at hy ⊢
              exact ⟨htodo idx (List.mem_cons_self _ _), rowCmp_selfR hy.2⟩
            rw [← heq] at hidx
            exact hns (List.mem_flatten.mpr ⟨matchingRows t i₁, hg, hidx⟩)
        · exact ih acc htodo' h1 h2

theorem dupGroupsAux_complete (t : Table)
    (hnn : ∀ x ∈ duplicate_indices t, rowNoNull t x = true) :
    ∀ (todo : List Nat) (acc : List (List Nat)),
      (∀ x ∈ todo, x ∈ duplicate_indices t) →
      ∀ x ∈ todo, x ∈ (dupGroupsAux t todo acc).flatten := by
  intro todo
  induction todo with
  | nil => intro acc _ x hx; cases hx
  | cons idx rest ih =>
      intro acc htodo x hx
      have htodo' : ∀ y ∈ rest, y ∈ duplicate_indices t :=
        fun y hy => htodo y (List.mem_cons_of_mem _ hy)
      rcases List.mem_cons.mp hx with rfl | hxrest
      · simp only [dupGroupsAux]
        split
        · rename_i hin
          exact dupGroupsAux_flatten_mono t rest acc x hin
        · rename_i hnotin
          have hflag := htodo x (List.mem_cons_self _ _)
          have hno : rowNoNull t x = true := hnn x hflag
          obtain ⟨hx_lt, j, hj_lt, hjne, hdup⟩ := mem_duplicate_indices.mp hflag
          have hself : x ∈ matchingRows t x :=
            mem_matchingRows.mpr ⟨hx_lt, rowCmp_refl_of_noNull hno⟩
          have hj_mem : j ∈ matchingRows t x :=
            mem_matchingRows.mpr ⟨hj_lt, rowCmp_symm (rowCmp_of_dup_noNull hno hdup)⟩
          have h2 : 2 ≤ (matchingRows t x).length := two_le_length_of_ne hj_mem hself hjne
          split
          · apply dupGroupsAux_flatten_mono
            rw [List.flatten_append]
            refine List.mem_append_right _ ?_
            simpa using hself
          · rename_i hlt
            omega
      · simp only [dupGroupsAux]
        split
        · exact ih acc htodo' x hxrest
        · split
          · exact ih _ htodo' x hxrest
          · exact ih acc htodo' x hxrest

/-- C3 (amended): the duplicate groups (before the 50-group cap) are
pairwise disjoint, every group has at least two members, and their union
is contained in the flagged duplicate rows; the union equals the full
flagged set whenever no flagged row holds a missing value.  (With a
missing value in a duplicated row the claim fails — see the
counterexample — because `duplicated()` treats NaN as equal to NaN while
the grouping comparison `df == row_data` treats it as unequal to
everything, so the row is flagged but joins no group.)  The issue's
`affectedRows` are exactly the flagged rows and its `duplicateGroups`
field keeps the first 50 groups, row-adjusted. -/
theorem C3_duplicate_groups_theorem (t : Table) :
    List.Pairwise (fun g₁ g₂ => ∀ x ∈ g₁, x ∉ g₂) (duplicate_groups t) ∧
    (∀ g ∈ duplicate_groups t, 2 ≤ g.length) ∧
    (∀ x ∈ (duplicate_groups t).flatten, x ∈ duplicate_indices t) ∧
    ((∀ x ∈ duplicate_indices t, rowNoNull t x = true) →
      ∀ x, x ∈ duplicate_indices t ↔ x ∈ (duplicate_groups t).flatten) ∧
    (∀ iss ∈ full_row_duplicate_issues t,
      iss.affectedRows = mkAffected (duplicate_indices t) ∧
      iss.duplicateGroups =
        some (((duplicate_groups t).map (fun g => g.map adjust_row_number)).take 50)) := by
  have htodo : ∀ x ∈ duplicate_indices t, x < t.nRows :=
    fun x hx => (mem_duplicate_indices.mp hx).1
  have hspec := dupGroupsAux_spec t (duplicate_indices t) [] htodo (by simp) (by simp)
  have hsub : ∀ x ∈ (duplicate_groups t).flatten, x ∈ duplicate_indices t := by
    intro x hx
    obtain ⟨g, hg, hxg⟩ := List.mem_flatten.mp hx
    obtain ⟨⟨i, rfl⟩, h2⟩ := hspec.1 g hg
    exact mem_dup_of_matching hxg h2
  refine ⟨hspec.2, fun g hg => (hspec.1 g hg).2, hsub, ?_, ?_⟩
  · intro hnn x
    constructor
    · intro hx
      exact dupGroupsAux_complete t hnn (duplicate_indices t) [] (fun y hy => hy) x hx
    · exact hsub x
  · exact fun iss h => ⟨(wf_duprow t iss h).2.2.1, (wf_duprow t iss h).2.2.2⟩

/-- Two identical rows each holding a missing value. -/
def exTableC3 : Table :=
  { cols := ["a", "b"], rows := [[.int 1, .null], [.int 1, .null]] }

/-- C3, as stated, is false: both rows of `exTableC3` are flagged as
duplicates (NaN hashes equal to NaN), yet the grouping pass forms no
group at all (NaN compares unequal to itself in `df == row_data`), so
the union of the groups misses every flagged row. -/
theorem C3_duplicate_groups_counterexample :
    duplicate_indices exTableC3 = [0, 1] ∧
    duplicate_groups exTableC3 = [] ∧
    0 ∈ duplicate_indices exTableC3 ∧
    0 ∉ (duplicate_groups exTableC3).flatten := by
  decide

/-- Two identical clean rows and one distinct row. -/
def exTableC3w : Table :=
  { cols := ["a"], rows := [[.int 7], [.int 7], [.int 8]] }

theorem C3_duplicate_groups_witness :
    (∀ x ∈ duplicate_indices exTableC3w, rowNoNull exTableC3w x = true) ∧
    (0 ∈ duplicate_indices exTableC3w ↔ 0 ∈ (duplicate_groups exTableC3w).flatten) ∧
    0 ∈ duplicate_indices exTableC3w :=
  ⟨by decide, (C3_duplicate_groups_theorem exTableC3w).2.2.2.1 (by decide) 0, by decide⟩
